import Mathlib

/-!
Verification of the IEI diagnostic engine (src/iei_diagnostic_engine.py).

The engine is embedded shallowly:

* Python dicts become association lists, preserving insertion order (the
  order matters: `sorted(...)` in Python is stable, so tie-breaking in
  `get_top_diagnoses` depends on dict insertion order).
* Python floats become exact rationals (ℚ); the decimal literals of the
  source are exactly representable.  Shannon entropy (`calculate_entropy`,
  a transcendental function of the distribution) is abstracted as a
  parameter `H : Dist → ℚ`; every theorem about the session machine is
  proved for an arbitrary `H`, hence holds for the entropy the code
  computes.
* String splitting and substring search are re-implemented structurally
  (kernel-reducible) with the exact semantics of str.split / the in
  operator used by the source.
-/

set_option maxRecDepth 20000
set_option maxHeartbeats 2000000

/- Batteries seals rational arithmetic behind irreducibility, which blocks
kernel-style evaluation by decide on concrete table entries; re-open it for
this development (proof terms are unaffected). -/
set_option allowUnsafeReducibility true
attribute [semireducible] Rat.ofScientific Rat.add Rat.mul Rat.sub Rat.inv

namespace IEI

/-- A probability table / distribution: category (or key) to rational. -/
abbrev Dist := List (String × ℚ)

/-- The conditional probability table: question id → answer → category → ℚ. -/
abbrev CPT := List (String × List (String × Dist))

/-- Mirrors the dataclass PathognomicPattern of the source. -/
structure PathognomicPattern where
  name : String
  triggers : List String
  probability : ℚ
  category : String
  confirm_with : List String
deriving DecidableEq

/-- Mirrors the dataclass Question of the source. -/
structure Question where
  id : String
  text : String
  answer_options : List String
  base_information_gain : ℚ
  is_nodal : Bool
  nodal_weight : ℚ
deriving DecidableEq

/-- `d.get(k, 0)` on a Python dict, as first-match lookup on the assoc list. -/
def alookup {α : Type} (l : List (String × α)) (k : String) : Option α :=
  (l.find? (fun p => decide (p.1 = k))).map (fun p => p.2)

/-- `d.get(k, 0)` for probability dicts. -/
def dgetD (l : Dist) (k : String) : ℚ :=
  (alookup l k).getD 0

/-- `d[k] = v` on a Python dict: overwrite in place if the key exists
(keeping its position), append otherwise.  The lists built this way have
unique keys, matching dict semantics. -/
def dictInsert : List (String × String) → String → String → List (String × String)
  | [], k, v => [(k, v)]
  | p :: t, k, v => if p.1 = k then (p.1, v) :: t else p :: dictInsert t k v

/-- Sum of the values of a distribution (`sum(d.values())`). -/
def sumValues (d : Dist) : ℚ := (d.map (fun p => p.2)).sum

/-- `max(d.values())` for a nonempty dict (0 on the empty dict, where the
Python source would raise). -/
def maxVal (d : Dist) : ℚ :=
  match d with
  | [] => 0
  | p :: rest => rest.foldl (fun m q => max m q.2) p.2

def IEI_CATEGORIES : List String :=
  ["Combined_ID",
   "Antibody_Deficiency",
   "Phagocyte_Defect",
   "Complement_Deficiency",
   "Autoinflammatory",
   "Immune_Dysregulation",
   "Innate_Immunity",
   "Bone_Marrow_Failure"]

def pat_AT : PathognomicPattern :=
  ⟨"Ataxia-Telangiectasia", ["Q23:Yes"], 0.95, "Immune_Dysregulation", ["Q35", "Q27", "Q12"]⟩

def pat_WAS : PathognomicPattern :=
  ⟨"Wiskott-Aldrich Syndrome", ["Q7:Yes_severe", "Q2:Yes_severe", "Q17:Thrombocytopenia"], 0.90, "Combined_ID", ["Q6", "Q15", "Q36"]⟩

def pat_LAD1 : PathognomicPattern :=
  ⟨"LAD-1 (Leukocyte Adhesion Deficiency)", ["Q39:Yes"], 0.85, "Phagocyte_Defect", ["Q40", "Q8", "Q36"]⟩

def pat_CGD : PathognomicPattern :=
  ⟨"Chronic Granulomatous Disease", ["Q15:Fungi", "Q8:Yes", "Q45:Yes"], 0.88, "Phagocyte_Defect", ["Q6", "Q25", "Q41"]⟩

def pat_SCID : PathognomicPattern :=
  ⟨"SCID (Severe Combined Immunodeficiency)", ["Q1:<6mo", "Q5:Yes", "Q33:Yes"], 0.92, "Combined_ID", ["Q43", "Q46", "Q44"]⟩

def pat_APECED : PathognomicPattern :=
  ⟨"APECED (APS-1)", ["Q10:Yes", "Q27:Yes", "Q31:Yes"], 0.87, "Immune_Dysregulation", ["Q36", "Q13", "Q49"]⟩

def pat_HIES : PathognomicPattern :=
  ⟨"Hyper-IgE Syndrome (STAT3)", ["Q7:Yes_severe", "Q8:Yes", "Q24:Yes", "Q13:Yes"], 0.86, "Combined_ID", ["Q14", "Q20", "Q40"]⟩

def PATHOGNOMONIC_PATTERNS : List PathognomicPattern :=
  [pat_AT, pat_WAS, pat_LAD1, pat_CGD, pat_SCID, pat_APECED, pat_HIES]

def QUESTIONS : List (String × Question) :=
  [   ("Q3", ⟨"Q3", "Recurrent infections?",
    ["Yes_single_pathogen", "Yes_multiple_pathogens", "Non_infectious_manifestations"], 0.92, true, 2.5⟩),
   ("Q9", ⟨"Q9", "Recurrent fever?",
    ["No", "Yes"], 1.15, true, 2.8⟩),
   ("Q15", ⟨"Q15", "What is the PRIMARY type of pathogen causing infections?",
    ["Fungi", "Bacteria", "Virus", "Mycobacteria", "Parasite", "None/Non_infectious"], 2.95, true, 3.5⟩),
   ("Q1", ⟨"Q1", "Age at onset?",
    ["<6mo", "6mo-5yr", "5-12yr", "12+_years"], 2.35, true, 3.2⟩),
   ("Q12", ⟨"Q12", "Dysgammaglobulinemia?",
    ["Normal", "Hypogammaglobulinemia", "Hypergammaglobulinemia", "Specific_Deficiency"], 2.05, true, 3.0⟩),
   ("Q5", ⟨"Q5", "Adverse reaction to vaccine(s)? BCG, MMR, VZV, Polio",
    ["No", "Yes_BCG", "Yes_Viral", "Yes_Multiple"], 1.55, true, 2.9⟩),
   ("Q17", ⟨"Q17", "Cytopenias?",
    ["None", "Thrombocytopenia", "Neutropenia", "Lymphopenia", "Multiple"], 1.65, true, 2.6⟩),
   ("Q16", ⟨"Q16", "Multiple different pathogen types (e.g., bacteria AND fungi)?",
    ["No_single_type", "Yes_two_types", "Yes_three_or_more"], 1.25, false, 1.0⟩),
   ("Q2", ⟨"Q2", "Bleeding tendency? (Petechiae, epistaxis, easy bruising, bloody diarrhea, melena)",
    ["No", "Yes_mild", "Yes_severe"], 0.88, false, 1.0⟩),
   ("Q6", ⟨"Q6", "Sex of the patient?",
    ["Male", "Female"], 0.18, false, 1.0⟩),
   ("Q7", ⟨"Q7", "History of eczema or rash?",
    ["No", "Yes_mild", "Yes_severe"], 0.98, false, 1.0⟩),
   ("Q11", ⟨"Q11", "Lymphoproliferation? (Hepatomegaly, splenomegaly, lymphadenopathy)",
    ["No", "Yes_one_site", "Yes_multiple_sites"], 1.25, false, 1.0⟩),
   ("Q13", ⟨"Q13", "Congenital malformation(s)?",
    ["No", "Yes_cardiac", "Yes_skeletal", "Yes_other", "Yes_multiple"], 0.78, false, 1.0⟩),
   ("Q14", ⟨"Q14", "Dysmorphism or peculiar facies?",
    ["No", "Yes"], 0.82, false, 1.0⟩),
   ("Q18", ⟨"Q18", "Polycythemia/hypercellularity? (Leukocytosis, eosinophilia, neutrophilia, thrombocytosis)",
    ["No", "Yes_eosinophilia", "Yes_leukocytosis", "Yes_other"], 0.72, false, 1.0⟩),
   ("Q19", ⟨"Q19", "Silver hair or hypopigmentation?",
    ["No", "Yes"], 0.58, false, 1.0⟩),
   ("Q20", ⟨"Q20", "Dystrophic nails?",
    ["No", "Yes"], 0.42, false, 1.0⟩),
   ("Q21", ⟨"Q21", "Alopecia or vitiligo?",
    ["No", "Yes"], 0.52, false, 1.0⟩),
   ("Q22", ⟨"Q22", "Warts or molluscum contagiosum?",
    ["No", "Yes"], 0.68, false, 1.0⟩),
   ("Q23", ⟨"Q23", "Ataxia? Telangiectasia?",
    ["No", "Yes_ataxia", "Yes_telangiectasia", "Yes_both"], 0.52, false, 1.0⟩),
   ("Q24", ⟨"Q24", "Bronchiectases?",
    ["No", "Yes"], 0.98, false, 1.0⟩),
   ("Q25", ⟨"Q25", "Complicated pneumonia? (Empyema, lung abscess, necrotizing)",
    ["No", "Yes"], 1.20, false, 1.0⟩),
   ("Q26", ⟨"Q26", "Arthritis?",
    ["No", "Yes"], 0.48, false, 1.0⟩),
   ("Q27", ⟨"Q27", "Autoimmunity? (Lupus, vasculitis, serum autoantibodies)",
    ["No", "Yes_organ_specific", "Yes_systemic"], 0.92, false, 1.0⟩),
   ("Q28", ⟨"Q28", "HLH (hemophagocytic lymphohistiocytosis)?",
    ["No", "Yes"], 0.72, false, 1.0⟩),
   ("Q29", ⟨"Q29", "Intensive care unit admission?",
    ["No", "Yes"], 0.62, false, 1.0⟩),
   ("Q30", ⟨"Q30", "Neurologic deficit? Developmental delay?",
    ["No", "Yes"], 0.58, false, 1.0⟩),
   ("Q31", ⟨"Q31", "Inflammatory bowel disease?",
    ["No", "Yes"], 0.78, false, 1.0⟩),
   ("Q32", ⟨"Q32", "Anhidrotic ectodermal dysplasia?",
    ["No", "Yes"], 0.38, false, 1.0⟩),
   ("Q33", ⟨"Q33", "Absent thymic shadow? Hypoplastic thymus?",
    ["No", "Yes"], 1.35, false, 1.0⟩),
   ("Q34", ⟨"Q34", "Severe atopy?",
    ["No", "Yes"], 0.88, false, 1.0⟩),
   ("Q35", ⟨"Q35", "Lymphoma? Malignancy?",
    ["No", "Yes"], 0.62, false, 1.0⟩),
   ("Q4", ⟨"Q4", "Infection site(s)?",
    ["Sinopulmonary", "Skin_soft_tissue", "Invasive_deep", "Disseminated_multiple"], 1.85, false, 1.0⟩),
   ("Q10", ⟨"Q10", "Chronic mucocutaneous candidiasis?",
    ["No", "Yes"], 1.50, false, 1.0⟩),
   ("Q8", ⟨"Q8", "History of Abscesses?",
    ["No", "Yes"], 1.40, false, 1.0⟩)]

def CONDITIONAL_PROBABILITIES : CPT :=
  [   ("Q15",
    [
     ("Fungi",
      [("Phagocyte_Defect", 0.50), ("Combined_ID", 0.25), ("Innate_Immunity", 0.15), ("Immune_Dysregulation", 0.05), ("Antibody_Deficiency", 0.03), ("Autoinflammatory", 0.01), ("Complement_Deficiency", 0.005), ("Bone_Marrow_Failure", 0.005)]),
     ("Bacteria",
      [("Antibody_Deficiency", 0.48), ("Phagocyte_Defect", 0.22), ("Complement_Deficiency", 0.12), ("Combined_ID", 0.10), ("Immune_Dysregulation", 0.05), ("Innate_Immunity", 0.02), ("Autoinflammatory", 0.005), ("Bone_Marrow_Failure", 0.005)]),
     ("Virus",
      [("Combined_ID", 0.55), ("Innate_Immunity", 0.15), ("Immune_Dysregulation", 0.12), ("Antibody_Deficiency", 0.08), ("Bone_Marrow_Failure", 0.05), ("Phagocyte_Defect", 0.03), ("Autoinflammatory", 0.01), ("Complement_Deficiency", 0.01)]),
     ("Mycobacteria",
      [("Innate_Immunity", 0.60), ("Phagocyte_Defect", 0.20), ("Combined_ID", 0.10), ("Immune_Dysregulation", 0.05), ("Antibody_Deficiency", 0.03), ("Autoinflammatory", 0.01), ("Complement_Deficiency", 0.005), ("Bone_Marrow_Failure", 0.005)]),
     ("Parasite",
      [("Combined_ID", 0.40), ("Antibody_Deficiency", 0.25), ("Immune_Dysregulation", 0.15), ("Innate_Immunity", 0.10), ("Phagocyte_Defect", 0.05), ("Autoinflammatory", 0.025), ("Complement_Deficiency", 0.015), ("Bone_Marrow_Failure", 0.01)]),
     ("None",
      [("Autoinflammatory", 0.50), ("Immune_Dysregulation", 0.25), ("Complement_Deficiency", 0.10), ("Antibody_Deficiency", 0.05), ("Combined_ID", 0.05), ("Phagocyte_Defect", 0.03), ("Innate_Immunity", 0.01), ("Bone_Marrow_Failure", 0.01)])]),
   ("Q1",
    [
     ("<6mo",
      [("Combined_ID", 0.65), ("Bone_Marrow_Failure", 0.15), ("Phagocyte_Defect", 0.10), ("Immune_Dysregulation", 0.05), ("Innate_Immunity", 0.03), ("Antibody_Deficiency", 0.01), ("Complement_Deficiency", 0.005), ("Autoinflammatory", 0.005)]),
     ("6mo-5yr",
      [("Antibody_Deficiency", 0.40), ("Phagocyte_Defect", 0.25), ("Combined_ID", 0.15), ("Immune_Dysregulation", 0.10), ("Innate_Immunity", 0.05), ("Autoinflammatory", 0.03), ("Bone_Marrow_Failure", 0.01), ("Complement_Deficiency", 0.01)]),
     ("5-12yr",
      [("Antibody_Deficiency", 0.50), ("Immune_Dysregulation", 0.15), ("Autoinflammatory", 0.12), ("Complement_Deficiency", 0.10), ("Phagocyte_Defect", 0.08), ("Combined_ID", 0.03), ("Innate_Immunity", 0.01), ("Bone_Marrow_Failure", 0.01)]),
     ("12+_years",
      [("Antibody_Deficiency", 0.50), ("Complement_Deficiency", 0.18), ("Immune_Dysregulation", 0.12), ("Autoinflammatory", 0.10), ("Phagocyte_Defect", 0.06), ("Combined_ID", 0.03), ("Innate_Immunity", 0.008), ("Bone_Marrow_Failure", 0.002)])]),
   ("Q12",
    [
     ("Hypogammaglobulinemia",
      [("Antibody_Deficiency", 0.55), ("Combined_ID", 0.25), ("Immune_Dysregulation", 0.10), ("Phagocyte_Defect", 0.05), ("Bone_Marrow_Failure", 0.03), ("Innate_Immunity", 0.015), ("Autoinflammatory", 0.003), ("Complement_Deficiency", 0.002)]),
     ("Hypergammaglobulinemia",
      [("Immune_Dysregulation", 0.35), ("Combined_ID", 0.25), ("Autoinflammatory", 0.20), ("Antibody_Deficiency", 0.10), ("Innate_Immunity", 0.05), ("Phagocyte_Defect", 0.03), ("Bone_Marrow_Failure", 0.015), ("Complement_Deficiency", 0.005)]),
     ("Specific_Deficiency",
      [("Antibody_Deficiency", 0.75), ("Immune_Dysregulation", 0.12), ("Combined_ID", 0.05), ("Autoinflammatory", 0.04), ("Complement_Deficiency", 0.02), ("Phagocyte_Defect", 0.01), ("Innate_Immunity", 0.005), ("Bone_Marrow_Failure", 0.005)]),
     ("Normal",
      [("Phagocyte_Defect", 0.28), ("Combined_ID", 0.22), ("Autoinflammatory", 0.20), ("Innate_Immunity", 0.15), ("Complement_Deficiency", 0.10), ("Immune_Dysregulation", 0.04), ("Antibody_Deficiency", 0.005), ("Bone_Marrow_Failure", 0.005)])]),
   ("Q3",
    [
     ("Yes_multiple_pathogens",
      [("Antibody_Deficiency", 0.45), ("Phagocyte_Defect", 0.25), ("Combined_ID", 0.18), ("Complement_Deficiency", 0.06), ("Immune_Dysregulation", 0.04), ("Innate_Immunity", 0.015), ("Bone_Marrow_Failure", 0.003), ("Autoinflammatory", 0.002)]),
     ("Yes_single_pathogen",
      [("Phagocyte_Defect", 0.35), ("Antibody_Deficiency", 0.25), ("Combined_ID", 0.15), ("Complement_Deficiency", 0.12), ("Innate_Immunity", 0.08), ("Immune_Dysregulation", 0.03), ("Bone_Marrow_Failure", 0.015), ("Autoinflammatory", 0.005)]),
     ("Non_infectious_manifestations",
      [("Autoinflammatory", 0.50), ("Immune_Dysregulation", 0.28), ("Complement_Deficiency", 0.12), ("Antibody_Deficiency", 0.05), ("Phagocyte_Defect", 0.03), ("Combined_ID", 0.015), ("Innate_Immunity", 0.003), ("Bone_Marrow_Failure", 0.002)])]),
   ("Q9",
    [
     ("Yes",
      [("Autoinflammatory", 0.60), ("Immune_Dysregulation", 0.20), ("Innate_Immunity", 0.08), ("Phagocyte_Defect", 0.05), ("Antibody_Deficiency", 0.04), ("Combined_ID", 0.02), ("Bone_Marrow_Failure", 0.005), ("Complement_Deficiency", 0.005)]),
     ("No",
      [("Antibody_Deficiency", 0.40), ("Phagocyte_Defect", 0.20), ("Combined_ID", 0.15), ("Immune_Dysregulation", 0.10), ("Complement_Deficiency", 0.08), ("Innate_Immunity", 0.05), ("Bone_Marrow_Failure", 0.015), ("Autoinflammatory", 0.005)])]),
   ("Q5",
    [
     ("Yes_BCG",
      [("Combined_ID", 0.55), ("Innate_Immunity", 0.25), ("Phagocyte_Defect", 0.10), ("Immune_Dysregulation", 0.05), ("Bone_Marrow_Failure", 0.03), ("Antibody_Deficiency", 0.01), ("Autoinflammatory", 0.005), ("Complement_Deficiency", 0.005)]),
     ("Yes_Viral",
      [("Combined_ID", 0.70), ("Innate_Immunity", 0.15), ("Immune_Dysregulation", 0.08), ("Bone_Marrow_Failure", 0.04), ("Antibody_Deficiency", 0.02), ("Phagocyte_Defect", 0.005), ("Autoinflammatory", 0.003), ("Complement_Deficiency", 0.002)]),
     ("Yes_Multiple",
      [("Combined_ID", 0.80), ("Immune_Dysregulation", 0.10), ("Innate_Immunity", 0.05), ("Bone_Marrow_Failure", 0.03), ("Antibody_Deficiency", 0.01), ("Phagocyte_Defect", 0.005), ("Autoinflammatory", 0.003), ("Complement_Deficiency", 0.002)]),
     ("No",
      [("Antibody_Deficiency", 0.45), ("Phagocyte_Defect", 0.20), ("Autoinflammatory", 0.12), ("Complement_Deficiency", 0.10), ("Immune_Dysregulation", 0.08), ("Innate_Immunity", 0.03), ("Bone_Marrow_Failure", 0.015), ("Combined_ID", 0.005)])]),
   ("Q17",
    [
     ("Thrombocytopenia",
      [("Combined_ID", 0.40), ("Immune_Dysregulation", 0.30), ("Bone_Marrow_Failure", 0.15), ("Antibody_Deficiency", 0.08), ("Phagocyte_Defect", 0.04), ("Autoinflammatory", 0.02), ("Innate_Immunity", 0.005), ("Complement_Deficiency", 0.005)]),
     ("Neutropenia",
      [("Phagocyte_Defect", 0.50), ("Bone_Marrow_Failure", 0.20), ("Immune_Dysregulation", 0.15), ("Combined_ID", 0.08), ("Antibody_Deficiency", 0.04), ("Autoinflammatory", 0.02), ("Innate_Immunity", 0.005), ("Complement_Deficiency", 0.005)]),
     ("Lymphopenia",
      [("Combined_ID", 0.60), ("Immune_Dysregulation", 0.20), ("Bone_Marrow_Failure", 0.10), ("Antibody_Deficiency", 0.05), ("Phagocyte_Defect", 0.03), ("Innate_Immunity", 0.01), ("Autoinflammatory", 0.005), ("Complement_Deficiency", 0.005)]),
     ("Multiple",
      [("Bone_Marrow_Failure", 0.40), ("Immune_Dysregulation", 0.35), ("Combined_ID", 0.15), ("Antibody_Deficiency", 0.05), ("Phagocyte_Defect", 0.03), ("Autoinflammatory", 0.01), ("Innate_Immunity", 0.005), ("Complement_Deficiency", 0.005)]),
     ("None",
      [("Antibody_Deficiency", 0.40), ("Autoinflammatory", 0.20), ("Phagocyte_Defect", 0.15), ("Complement_Deficiency", 0.12), ("Innate_Immunity", 0.08), ("Immune_Dysregulation", 0.03), ("Combined_ID", 0.015), ("Bone_Marrow_Failure", 0.005)])]),
   ("Q16",
    [
     ("Yes_three_or_more",
      [("Combined_ID", 0.70), ("Immune_Dysregulation", 0.15), ("Antibody_Deficiency", 0.08), ("Phagocyte_Defect", 0.04), ("Innate_Immunity", 0.02), ("Bone_Marrow_Failure", 0.005), ("Autoinflammatory", 0.003), ("Complement_Deficiency", 0.002)]),
     ("Yes_two_types",
      [("Phagocyte_Defect", 0.45), ("Combined_ID", 0.30), ("Antibody_Deficiency", 0.15), ("Immune_Dysregulation", 0.05), ("Innate_Immunity", 0.03), ("Bone_Marrow_Failure", 0.01), ("Complement_Deficiency", 0.005), ("Autoinflammatory", 0.005)]),
     ("No_single_type",
      [("Antibody_Deficiency", 0.50), ("Phagocyte_Defect", 0.20), ("Innate_Immunity", 0.12), ("Autoinflammatory", 0.08), ("Complement_Deficiency", 0.05), ("Immune_Dysregulation", 0.03), ("Combined_ID", 0.015), ("Bone_Marrow_Failure", 0.005)])]),
   ("Q2",
    [
     ("Yes_severe",
      [("Combined_ID", 0.45), ("Immune_Dysregulation", 0.25), ("Bone_Marrow_Failure", 0.15), ("Complement_Deficiency", 0.08), ("Antibody_Deficiency", 0.04), ("Phagocyte_Defect", 0.02), ("Innate_Immunity", 0.005), ("Autoinflammatory", 0.005)]),
     ("Yes_mild",
      [("Immune_Dysregulation", 0.35), ("Antibody_Deficiency", 0.25), ("Combined_ID", 0.15), ("Bone_Marrow_Failure", 0.12), ("Complement_Deficiency", 0.08), ("Autoinflammatory", 0.03), ("Phagocyte_Defect", 0.015), ("Innate_Immunity", 0.005)]),
     ("No",
      [("Antibody_Deficiency", 0.48), ("Phagocyte_Defect", 0.18), ("Autoinflammatory", 0.12), ("Innate_Immunity", 0.10), ("Complement_Deficiency", 0.06), ("Combined_ID", 0.03), ("Immune_Dysregulation", 0.02), ("Bone_Marrow_Failure", 0.01)])]),
   ("Q6",
    [
     ("Male",
      [("Antibody_Deficiency", 0.40), ("Phagocyte_Defect", 0.20), ("Combined_ID", 0.15), ("Bone_Marrow_Failure", 0.10), ("Immune_Dysregulation", 0.08), ("Innate_Immunity", 0.04), ("Autoinflammatory", 0.02), ("Complement_Deficiency", 0.01)]),
     ("Female",
      [("Antibody_Deficiency", 0.50), ("Autoinflammatory", 0.15), ("Phagocyte_Defect", 0.10), ("Immune_Dysregulation", 0.10), ("Combined_ID", 0.08), ("Complement_Deficiency", 0.04), ("Innate_Immunity", 0.02), ("Bone_Marrow_Failure", 0.01)])]),
   ("Q7",
    [
     ("Yes_severe",
      [("Combined_ID", 0.50), ("Phagocyte_Defect", 0.20), ("Immune_Dysregulation", 0.15), ("Bone_Marrow_Failure", 0.08), ("Innate_Immunity", 0.04), ("Antibody_Deficiency", 0.02), ("Autoinflammatory", 0.005), ("Complement_Deficiency", 0.005)]),
     ("Yes_mild",
      [("Antibody_Deficiency", 0.40), ("Immune_Dysregulation", 0.20), ("Phagocyte_Defect", 0.15), ("Combined_ID", 0.12), ("Innate_Immunity", 0.08), ("Bone_Marrow_Failure", 0.03), ("Autoinflammatory", 0.015), ("Complement_Deficiency", 0.005)]),
     ("No",
      [("Antibody_Deficiency", 0.48), ("Autoinflammatory", 0.15), ("Complement_Deficiency", 0.12), ("Innate_Immunity", 0.10), ("Phagocyte_Defect", 0.08), ("Immune_Dysregulation", 0.04), ("Combined_ID", 0.02), ("Bone_Marrow_Failure", 0.01)])]),
   ("Q11",
    [
     ("Yes_multiple_sites",
      [("Immune_Dysregulation", 0.50), ("Antibody_Deficiency", 0.25), ("Combined_ID", 0.12), ("Bone_Marrow_Failure", 0.05), ("Innate_Immunity", 0.04), ("Phagocyte_Defect", 0.02), ("Autoinflammatory", 0.015), ("Complement_Deficiency", 0.005)]),
     ("Yes_one_site",
      [("Antibody_Deficiency", 0.45), ("Immune_Dysregulation", 0.25), ("Combined_ID", 0.12), ("Innate_Immunity", 0.08), ("Phagocyte_Defect", 0.05), ("Bone_Marrow_Failure", 0.03), ("Autoinflammatory", 0.015), ("Complement_Deficiency", 0.005)]),
     ("No",
      [("Autoinflammatory", 0.30), ("Antibody_Deficiency", 0.25), ("Phagocyte_Defect", 0.18), ("Complement_Deficiency", 0.12), ("Innate_Immunity", 0.08), ("Combined_ID", 0.04), ("Immune_Dysregulation", 0.02), ("Bone_Marrow_Failure", 0.01)])]),
   ("Q13",
    [
     ("Yes_multiple",
      [("Combined_ID", 0.60), ("Bone_Marrow_Failure", 0.20), ("Immune_Dysregulation", 0.10), ("Phagocyte_Defect", 0.05), ("Complement_Deficiency", 0.03), ("Antibody_Deficiency", 0.015), ("Innate_Immunity", 0.003), ("Autoinflammatory", 0.002)]),
     ("Yes_cardiac",
      [("Combined_ID", 0.70), ("Complement_Deficiency", 0.12), ("Bone_Marrow_Failure", 0.08), ("Immune_Dysregulation", 0.05), ("Antibody_Deficiency", 0.03), ("Phagocyte_Defect", 0.015), ("Innate_Immunity", 0.003), ("Autoinflammatory", 0.002)]),
     ("Yes_skeletal",
      [("Combined_ID", 0.45), ("Bone_Marrow_Failure", 0.25), ("Phagocyte_Defect", 0.15), ("Immune_Dysregulation", 0.08), ("Antibody_Deficiency", 0.04), ("Complement_Deficiency", 0.02), ("Innate_Immunity", 0.005), ("Autoinflammatory", 0.005)]),
     ("Yes_other",
      [("Combined_ID", 0.40), ("Immune_Dysregulation", 0.20), ("Bone_Marrow_Failure", 0.15), ("Phagocyte_Defect", 0.12), ("Antibody_Deficiency", 0.08), ("Complement_Deficiency", 0.03), ("Innate_Immunity", 0.015), ("Autoinflammatory", 0.005)]),
     ("No",
      [("Antibody_Deficiency", 0.50), ("Autoinflammatory", 0.15), ("Phagocyte_Defect", 0.12), ("Innate_Immunity", 0.10), ("Immune_Dysregulation", 0.08), ("Complement_Deficiency", 0.03), ("Combined_ID", 0.015), ("Bone_Marrow_Failure", 0.005)])]),
   ("Q14",
    [
     ("Yes",
      [("Combined_ID", 0.55), ("Bone_Marrow_Failure", 0.20), ("Phagocyte_Defect", 0.12), ("Immune_Dysregulation", 0.08), ("Antibody_Deficiency", 0.03), ("Complement_Deficiency", 0.015), ("Innate_Immunity", 0.003), ("Autoinflammatory", 0.002)]),
     ("No",
      [("Antibody_Deficiency", 0.50), ("Autoinflammatory", 0.15), ("Phagocyte_Defect", 0.12), ("Innate_Immunity", 0.10), ("Immune_Dysregulation", 0.08), ("Complement_Deficiency", 0.03), ("Combined_ID", 0.015), ("Bone_Marrow_Failure", 0.005)])]),
   ("Q18",
    [
     ("Yes_eosinophilia",
      [("Combined_ID", 0.45), ("Phagocyte_Defect", 0.25), ("Immune_Dysregulation", 0.15), ("Innate_Immunity", 0.08), ("Antibody_Deficiency", 0.04), ("Autoinflammatory", 0.02), ("Bone_Marrow_Failure", 0.005), ("Complement_Deficiency", 0.005)]),
     ("Yes_leukocytosis",
      [("Autoinflammatory", 0.40), ("Phagocyte_Defect", 0.25), ("Immune_Dysregulation", 0.15), ("Innate_Immunity", 0.10), ("Antibody_Deficiency", 0.05), ("Combined_ID", 0.03), ("Bone_Marrow_Failure", 0.015), ("Complement_Deficiency", 0.005)]),
     ("Yes_other",
      [("Autoinflammatory", 0.35), ("Immune_Dysregulation", 0.25), ("Phagocyte_Defect", 0.15), ("Antibody_Deficiency", 0.12), ("Innate_Immunity", 0.08), ("Combined_ID", 0.03), ("Complement_Deficiency", 0.015), ("Bone_Marrow_Failure", 0.005)]),
     ("No",
      [("Antibody_Deficiency", 0.50), ("Phagocyte_Defect", 0.15), ("Combined_ID", 0.12), ("Innate_Immunity", 0.10), ("Immune_Dysregulation", 0.08), ("Complement_Deficiency", 0.03), ("Autoinflammatory", 0.015), ("Bone_Marrow_Failure", 0.005)])]),
   ("Q19",
    [
     ("Yes",
      [("Phagocyte_Defect", 0.65), ("Immune_Dysregulation", 0.20), ("Bone_Marrow_Failure", 0.10), ("Combined_ID", 0.03), ("Innate_Immunity", 0.015), ("Antibody_Deficiency", 0.003), ("Autoinflammatory", 0.001), ("Complement_Deficiency", 0.001)]),
     ("No",
      [("Antibody_Deficiency", 0.47), ("Autoinflammatory", 0.15), ("Phagocyte_Defect", 0.12), ("Innate_Immunity", 0.10), ("Immune_Dysregulation", 0.09), ("Combined_ID", 0.04), ("Complement_Deficiency", 0.02), ("Bone_Marrow_Failure", 0.01)])]),
   ("Q20",
    [
     ("Yes",
      [("Combined_ID", 0.50), ("Innate_Immunity", 0.25), ("Phagocyte_Defect", 0.12), ("Immune_Dysregulation", 0.08), ("Antibody_Deficiency", 0.03), ("Bone_Marrow_Failure", 0.015), ("Autoinflammatory", 0.003), ("Complement_Deficiency", 0.002)]),
     ("No",
      [("Antibody_Deficiency", 0.48), ("Autoinflammatory", 0.15), ("Innate_Immunity", 0.10), ("Combined_ID", 0.10), ("Immune_Dysregulation", 0.09), ("Phagocyte_Defect", 0.05), ("Complement_Deficiency", 0.02), ("Bone_Marrow_Failure", 0.01)])]),
   ("Q21",
    [
     ("Yes",
      [("Immune_Dysregulation", 0.60), ("Autoinflammatory", 0.20), ("Antibody_Deficiency", 0.12), ("Innate_Immunity", 0.04), ("Combined_ID", 0.02), ("Phagocyte_Defect", 0.015), ("Complement_Deficiency", 0.003), ("Bone_Marrow_Failure", 0.002)]),
     ("No",
      [("Antibody_Deficiency", 0.48), ("Phagocyte_Defect", 0.18), ("Autoinflammatory", 0.12), ("Innate_Immunity", 0.10), ("Combined_ID", 0.06), ("Complement_Deficiency", 0.03), ("Immune_Dysregulation", 0.02), ("Bone_Marrow_Failure", 0.01)])]),
   ("Q4",
    [
     ("Sinopulmonary",
      [("Antibody_Deficiency", 0.50), ("Complement_Deficiency", 0.18), ("Phagocyte_Defect", 0.12), ("Combined_ID", 0.10), ("Immune_Dysregulation", 0.05), ("Innate_Immunity", 0.03), ("Bone_Marrow_Failure", 0.015), ("Autoinflammatory", 0.005)]),
     ("Skin_soft_tissue",
      [("Phagocyte_Defect", 0.48), ("Antibody_Deficiency", 0.20), ("Innate_Immunity", 0.15), ("Combined_ID", 0.10), ("Immune_Dysregulation", 0.04), ("Bone_Marrow_Failure", 0.02), ("Autoinflammatory", 0.005), ("Complement_Deficiency", 0.005)]),
     ("Invasive_deep",
      [("Complement_Deficiency", 0.35), ("Combined_ID", 0.28), ("Antibody_Deficiency", 0.18), ("Phagocyte_Defect", 0.10), ("Innate_Immunity", 0.05), ("Immune_Dysregulation", 0.03), ("Bone_Marrow_Failure", 0.008), ("Autoinflammatory", 0.002)]),
     ("Disseminated_multiple",
      [("Combined_ID", 0.45), ("Antibody_Deficiency", 0.25), ("Phagocyte_Defect", 0.15), ("Immune_Dysregulation", 0.08), ("Complement_Deficiency", 0.04), ("Innate_Immunity", 0.02), ("Bone_Marrow_Failure", 0.008), ("Autoinflammatory", 0.002)])]),
   ("Q10",
    [
     ("Yes",
      [("Innate_Immunity", 0.50), ("Immune_Dysregulation", 0.25), ("Combined_ID", 0.15), ("Phagocyte_Defect", 0.05), ("Antibody_Deficiency", 0.03), ("Bone_Marrow_Failure", 0.01), ("Autoinflammatory", 0.005), ("Complement_Deficiency", 0.005)]),
     ("No",
      [("Antibody_Deficiency", 0.45), ("Phagocyte_Defect", 0.20), ("Autoinflammatory", 0.12), ("Combined_ID", 0.10), ("Immune_Dysregulation", 0.08), ("Complement_Deficiency", 0.03), ("Bone_Marrow_Failure", 0.015), ("Innate_Immunity", 0.005)])]),
   ("Q8",
    [
     ("Yes",
      [("Phagocyte_Defect", 0.65), ("Innate_Immunity", 0.15), ("Combined_ID", 0.10), ("Antibody_Deficiency", 0.05), ("Immune_Dysregulation", 0.03), ("Bone_Marrow_Failure", 0.01), ("Autoinflammatory", 0.005), ("Complement_Deficiency", 0.005)]),
     ("No",
      [("Antibody_Deficiency", 0.50), ("Autoinflammatory", 0.15), ("Combined_ID", 0.12), ("Complement_Deficiency", 0.10), ("Immune_Dysregulation", 0.08), ("Innate_Immunity", 0.03), ("Bone_Marrow_Failure", 0.015), ("Phagocyte_Defect", 0.005)])]),
   ("Q22",
    [
     ("Yes",
      [("Combined_ID", 0.50), ("Innate_Immunity", 0.25), ("Immune_Dysregulation", 0.12), ("Antibody_Deficiency", 0.08), ("Phagocyte_Defect", 0.03), ("Bone_Marrow_Failure", 0.015), ("Autoinflammatory", 0.003), ("Complement_Deficiency", 0.002)]),
     ("No",
      [("Antibody_Deficiency", 0.18), ("Phagocyte_Defect", 0.17), ("Autoinflammatory", 0.15), ("Immune_Dysregulation", 0.14), ("Combined_ID", 0.13), ("Innate_Immunity", 0.11), ("Complement_Deficiency", 0.08), ("Bone_Marrow_Failure", 0.04)])]),
   ("Q23",
    [
     ("Yes_both",
      [("Immune_Dysregulation", 0.95), ("Combined_ID", 0.03), ("Antibody_Deficiency", 0.015), ("Phagocyte_Defect", 0.002), ("Innate_Immunity", 0.001), ("Autoinflammatory", 0.001), ("Complement_Deficiency", 0.0005), ("Bone_Marrow_Failure", 0.0005)]),
     ("Yes_telangiectasia",
      [("Immune_Dysregulation", 0.70), ("Combined_ID", 0.15), ("Antibody_Deficiency", 0.08), ("Phagocyte_Defect", 0.04), ("Innate_Immunity", 0.02), ("Complement_Deficiency", 0.005), ("Autoinflammatory", 0.003), ("Bone_Marrow_Failure", 0.002)]),
     ("Yes_ataxia",
      [("Immune_Dysregulation", 0.45), ("Combined_ID", 0.25), ("Antibody_Deficiency", 0.15), ("Innate_Immunity", 0.08), ("Phagocyte_Defect", 0.04), ("Complement_Deficiency", 0.02), ("Autoinflammatory", 0.005), ("Bone_Marrow_Failure", 0.005)]),
     ("No",
      [("Antibody_Deficiency", 0.18), ("Phagocyte_Defect", 0.17), ("Combined_ID", 0.16), ("Autoinflammatory", 0.14), ("Immune_Dysregulation", 0.11), ("Innate_Immunity", 0.12), ("Complement_Deficiency", 0.08), ("Bone_Marrow_Failure", 0.04)])]),
   ("Q24",
    [
     ("Yes",
      [("Antibody_Deficiency", 0.45), ("Phagocyte_Defect", 0.25), ("Combined_ID", 0.15), ("Innate_Immunity", 0.08), ("Immune_Dysregulation", 0.04), ("Complement_Deficiency", 0.02), ("Autoinflammatory", 0.005), ("Bone_Marrow_Failure", 0.005)]),
     ("No",
      [("Autoinflammatory", 0.18), ("Combined_ID", 0.17), ("Immune_Dysregulation", 0.15), ("Innate_Immunity", 0.14), ("Phagocyte_Defect", 0.13), ("Antibody_Deficiency", 0.11), ("Complement_Deficiency", 0.08), ("Bone_Marrow_Failure", 0.04)])]),
   ("Q25",
    [
     ("Yes",
      [("Phagocyte_Defect", 0.40), ("Combined_ID", 0.25), ("Antibody_Deficiency", 0.18), ("Complement_Deficiency", 0.10), ("Immune_Dysregulation", 0.04), ("Innate_Immunity", 0.02), ("Bone_Marrow_Failure", 0.008), ("Autoinflammatory", 0.002)]),
     ("No",
      [("Antibody_Deficiency", 0.18), ("Autoinflammatory", 0.17), ("Immune_Dysregulation", 0.15), ("Innate_Immunity", 0.14), ("Combined_ID", 0.13), ("Phagocyte_Defect", 0.11), ("Complement_Deficiency", 0.08), ("Bone_Marrow_Failure", 0.04)])]),
   ("Q26",
    [
     ("Yes",
      [("Autoinflammatory", 0.45), ("Immune_Dysregulation", 0.25), ("Antibody_Deficiency", 0.15), ("Complement_Deficiency", 0.08), ("Combined_ID", 0.04), ("Innate_Immunity", 0.02), ("Phagocyte_Defect", 0.008), ("Bone_Marrow_Failure", 0.002)]),
     ("No",
      [("Antibody_Deficiency", 0.18), ("Phagocyte_Defect", 0.17), ("Combined_ID", 0.16), ("Innate_Immunity", 0.14), ("Immune_Dysregulation", 0.12), ("Autoinflammatory", 0.11), ("Complement_Deficiency", 0.08), ("Bone_Marrow_Failure", 0.04)])]),
   ("Q27",
    [
     ("Yes_systemic",
      [("Immune_Dysregulation", 0.50), ("Complement_Deficiency", 0.20), ("Antibody_Deficiency", 0.15), ("Autoinflammatory", 0.08), ("Combined_ID", 0.04), ("Innate_Immunity", 0.02), ("Phagocyte_Defect", 0.008), ("Bone_Marrow_Failure", 0.002)]),
     ("Yes_organ_specific",
      [("Immune_Dysregulation", 0.60), ("Autoinflammatory", 0.15), ("Antibody_Deficiency", 0.12), ("Combined_ID", 0.08), ("Complement_Deficiency", 0.03), ("Innate_Immunity", 0.015), ("Phagocyte_Defect", 0.003), ("Bone_Marrow_Failure", 0.002)]),
     ("No",
      [("Antibody_Deficiency", 0.18), ("Phagocyte_Defect", 0.17), ("Combined_ID", 0.16), ("Innate_Immunity", 0.14), ("Autoinflammatory", 0.13), ("Immune_Dysregulation", 0.10), ("Complement_Deficiency", 0.08), ("Bone_Marrow_Failure", 0.04)])]),
   ("Q28",
    [
     ("Yes",
      [("Immune_Dysregulation", 0.75), ("Combined_ID", 0.15), ("Bone_Marrow_Failure", 0.05), ("Innate_Immunity", 0.03), ("Antibody_Deficiency", 0.015), ("Phagocyte_Defect", 0.003), ("Autoinflammatory", 0.001), ("Complement_Deficiency", 0.001)]),
     ("No",
      [("Antibody_Deficiency", 0.18), ("Phagocyte_Defect", 0.17), ("Combined_ID", 0.16), ("Innate_Immunity", 0.14), ("Autoinflammatory", 0.13), ("Immune_Dysregulation", 0.10), ("Complement_Deficiency", 0.08), ("Bone_Marrow_Failure", 0.04)])]),
   ("Q29",
    [
     ("Yes",
      [("Combined_ID", 0.40), ("Phagocyte_Defect", 0.25), ("Immune_Dysregulation", 0.15), ("Antibody_Deficiency", 0.10), ("Complement_Deficiency", 0.05), ("Innate_Immunity", 0.03), ("Bone_Marrow_Failure", 0.015), ("Autoinflammatory", 0.005)]),
     ("No",
      [("Antibody_Deficiency", 0.20), ("Autoinflammatory", 0.17), ("Innate_Immunity", 0.15), ("Immune_Dysregulation", 0.14), ("Phagocyte_Defect", 0.13), ("Combined_ID", 0.10), ("Complement_Deficiency", 0.08), ("Bone_Marrow_Failure", 0.03)])]),
   ("Q30",
    [
     ("Yes",
      [("Immune_Dysregulation", 0.40), ("Combined_ID", 0.30), ("Innate_Immunity", 0.15), ("Bone_Marrow_Failure", 0.08), ("Phagocyte_Defect", 0.04), ("Antibody_Deficiency", 0.02), ("Complement_Deficiency", 0.008), ("Autoinflammatory", 0.002)]),
     ("No",
      [("Antibody_Deficiency", 0.19), ("Phagocyte_Defect", 0.17), ("Combined_ID", 0.15), ("Autoinflammatory", 0.14), ("Innate_Immunity", 0.13), ("Immune_Dysregulation", 0.10), ("Complement_Deficiency", 0.08), ("Bone_Marrow_Failure", 0.04)])]),
   ("Q31",
    [
     ("Yes",
      [("Immune_Dysregulation", 0.50), ("Combined_ID", 0.25), ("Antibody_Deficiency", 0.12), ("Autoinflammatory", 0.08), ("Innate_Immunity", 0.03), ("Phagocyte_Defect", 0.015), ("Complement_Deficiency", 0.003), ("Bone_Marrow_Failure", 0.002)]),
     ("No",
      [("Antibody_Deficiency", 0.18), ("Phagocyte_Defect", 0.17), ("Combined_ID", 0.15), ("Autoinflammatory", 0.14), ("Innate_Immunity", 0.14), ("Immune_Dysregulation", 0.10), ("Complement_Deficiency", 0.08), ("Bone_Marrow_Failure", 0.04)])]),
   ("Q32",
    [
     ("Yes",
      [("Innate_Immunity", 0.85), ("Combined_ID", 0.10), ("Phagocyte_Defect", 0.03), ("Immune_Dysregulation", 0.015), ("Antibody_Deficiency", 0.003), ("Autoinflammatory", 0.001), ("Complement_Deficiency", 0.0005), ("Bone_Marrow_Failure", 0.0005)]),
     ("No",
      [("Antibody_Deficiency", 0.18), ("Phagocyte_Defect", 0.17), ("Combined_ID", 0.16), ("Autoinflammatory", 0.14), ("Immune_Dysregulation", 0.13), ("Innate_Immunity", 0.10), ("Complement_Deficiency", 0.08), ("Bone_Marrow_Failure", 0.04)])]),
   ("Q33",
    [
     ("Yes",
      [("Combined_ID", 0.90), ("Immune_Dysregulation", 0.05), ("Bone_Marrow_Failure", 0.03), ("Antibody_Deficiency", 0.015), ("Phagocyte_Defect", 0.003), ("Innate_Immunity", 0.001), ("Autoinflammatory", 0.0005), ("Complement_Deficiency", 0.0005)]),
     ("No",
      [("Antibody_Deficiency", 0.19), ("Phagocyte_Defect", 0.17), ("Autoinflammatory", 0.14), ("Immune_Dysregulation", 0.14), ("Innate_Immunity", 0.13), ("Combined_ID", 0.11), ("Complement_Deficiency", 0.08), ("Bone_Marrow_Failure", 0.04)])]),
   ("Q34",
    [
     ("Yes",
      [("Combined_ID", 0.40), ("Immune_Dysregulation", 0.25), ("Phagocyte_Defect", 0.15), ("Antibody_Deficiency", 0.12), ("Innate_Immunity", 0.05), ("Bone_Marrow_Failure", 0.02), ("Autoinflammatory", 0.008), ("Complement_Deficiency", 0.002)]),
     ("No",
      [("Antibody_Deficiency", 0.18), ("Phagocyte_Defect", 0.17), ("Autoinflammatory", 0.15), ("Innate_Immunity", 0.14), ("Immune_Dysregulation", 0.13), ("Combined_ID", 0.11), ("Complement_Deficiency", 0.08), ("Bone_Marrow_Failure", 0.04)])]),
   ("Q35",
    [
     ("Yes",
      [("Immune_Dysregulation", 0.50), ("Combined_ID", 0.25), ("Antibody_Deficiency", 0.12), ("Bone_Marrow_Failure", 0.08), ("Innate_Immunity", 0.03), ("Phagocyte_Defect", 0.015), ("Complement_Deficiency", 0.003), ("Autoinflammatory", 0.002)]),
     ("No",
      [("Antibody_Deficiency", 0.18), ("Phagocyte_Defect", 0.17), ("Combined_ID", 0.15), ("Autoinflammatory", 0.14), ("Innate_Immunity", 0.14), ("Immune_Dysregulation", 0.10), ("Complement_Deficiency", 0.08), ("Bone_Marrow_Failure", 0.04)])])]

def initialize_prior_probabilities : Dist :=
  [("Antibody_Deficiency", 0.15), ("Combined_ID", 0.15), ("Phagocyte_Defect", 0.15), ("Immune_Dysregulation", 0.13), ("Autoinflammatory", 0.12), ("Innate_Immunity", 0.12), ("Complement_Deficiency", 0.10), ("Bone_Marrow_Failure", 0.08)]

/-! ## String helpers (kernel-reducible versions of str.split and in) -/

/-- Auxiliary for `splitOnColon`, structural recursion on the char list. -/
def splitOnColonAux : List Char → List Char → List String
  | [], acc => [⟨acc.reverse⟩]
  | c :: cs, acc =>
    if c = ':' then ⟨acc.reverse⟩ :: splitOnColonAux cs []
    else splitOnColonAux cs (c :: acc)

/-- Python str.split of a trigger on the colon character. -/
def splitOnColon (s : String) : List String :=
  splitOnColonAux s.data []

/-- Contiguous-sublist test on char lists (Python substring membership). -/
def hasSubstr (needle : List Char) : List Char → Bool
  | [] => needle.isEmpty
  | c :: rest => needle.isPrefixOf (c :: rest) || hasSubstr needle rest

/-- Python `needle in hay` on strings. -/
def strContains (hay needle : String) : Bool :=
  hasSubstr needle.data hay.data

/-! ## Pattern matching (check_pathognomonic_patterns, source lines 1599-1639) -/

/-- One iteration of the trigger loop of check_pathognomonic_patterns: true
iff the trigger does not set match = False.  A malformed trigger (not
exactly two parts around the colon) is skipped, hence satisfied.  A
compound trigger (expected answer containing a plus) is satisfied when the
stored answer contains it as a substring or equals the literal Yes; a
plain trigger requires the stored answer to equal the expected token. -/
def trigger_satisfied (answers : List (String × String)) (trigger : String) : Bool :=
  match splitOnColon trigger with
  | [q_id, expected_answer] =>
    if strContains expected_answer "+" then
      let actual := (alookup answers q_id).getD ""
      strContains actual expected_answer || decide (actual = "Yes")
    else
      decide (alookup answers q_id = some expected_answer)
  | _ => true

/-- A pattern matches iff every trigger is satisfied. -/
def pattern_matches (answers : List (String × String)) (p : PathognomicPattern) : Bool :=
  p.triggers.all (trigger_satisfied answers)

/-- check_pathognomonic_patterns: first fully matched pattern, with its
fixed probability, in declaration order. -/
def check_pathognomonic_patterns (answers : List (String × String))
    (patterns : List PathognomicPattern) : Option (PathognomicPattern × ℚ) :=
  (patterns.find? (pattern_matches answers)).map (fun p => (p, p.probability))

/-! ## Bayesian update (update_probabilities_bayesian, source lines 1645-1700) -/

/-- P(answer) = sum over IEI_CATEGORIES of P(answer|cat) * P(cat). -/
def marginal_p_answer (answer_probs current_probs : Dist) : ℚ :=
  (IEI_CATEGORIES.map (fun cat => dgetD answer_probs cat * dgetD current_probs cat)).sum

/-- The dict `updated` of the source: Bayes posterior per category, clamped
to the 0.005 floor, in IEI_CATEGORIES order. -/
def flooredPosteriors (answer_probs current_probs : Dist) (p_answer : ℚ) : Dist :=
  IEI_CATEGORIES.map (fun cat =>
    (cat, max (dgetD answer_probs cat * dgetD current_probs cat / p_answer) 0.005))

/-- The final renormalization step of update_probabilities_bayesian:
divide by the total if it is positive, else return unchanged. -/
def normalizeDist (updated : Dist) : Dist :=
  if 0 < sumValues updated then updated.map (fun p => (p.1, p.2 / sumValues updated))
  else updated

/-- update_probabilities_bayesian: no-op on unknown question or answer or on
zero marginal, otherwise floor-then-renormalize the Bayes posterior. -/
def update_probabilities_bayesian (current_probs : Dist) (question_id answer : String)
    (conditional_probs : CPT) : Dist :=
  match alookup conditional_probs question_id with
  | none => current_probs
  | some qtable =>
    match alookup qtable answer with
    | none => current_probs
    | some answer_probs =>
      if marginal_p_answer answer_probs current_probs = 0 then current_probs
      else normalizeDist
        (flooredPosteriors answer_probs current_probs
          (marginal_p_answer answer_probs current_probs))

/-! ## Stable descending sort (Python sorted with reverse=True is stable) -/

/-- Insert into a descending-sorted list; on ties the inserted (originally
earlier) element stays in front, matching stable sort. -/
def insertDesc (x : String × ℚ) : List (String × ℚ) → List (String × ℚ)
  | [] => [x]
  | y :: ys => if y.2 ≤ x.2 then x :: y :: ys else y :: insertDesc x ys

/-- Stable sort, descending by the probability component. -/
def sortDesc : List (String × ℚ) → List (String × ℚ)
  | [] => []
  | x :: xs => insertDesc x (sortDesc xs)

/-- get_top_diagnoses (source lines 1911-1918) on a given distribution. -/
def get_top_diagnoses (probs : Dist) (n : Nat) : List (String × ℚ) :=
  (sortDesc probs).take n

/-! ## Information gain, relevance weight, question selection -/

/-- calculate_information_gain (source lines 1548-1593), with the entropy
function H as a parameter. -/
def calculate_information_gain (H : Dist → ℚ) (current_probs : Dist)
    (question_id : String) (conditional_probs : CPT) : ℚ :=
  match alookup conditional_probs question_id with
  | none => 0
  | some qtable =>
    let expected_posterior_entropy := (qtable.map (fun ap =>
      let p_answer := marginal_p_answer ap.2 current_probs
      if 0 < p_answer then
        p_answer * H (IEI_CATEGORIES.map (fun cat =>
          (cat, dgetD ap.2 cat * dgetD current_probs cat / p_answer)))
      else 0)).sum
    H current_probs - expected_posterior_entropy

/-- np.var of a list of rationals (population variance). -/
def npVariance (l : List ℚ) : ℚ :=
  if l.length = 0 then 0
  else
    ((l.map (fun x => (x - l.sum / (l.length : ℚ)) ^ 2)).sum) / (l.length : ℚ)

/-- calculate_relevance_weight (source lines 1762-1801). -/
def calculate_relevance_weight (question_id : String) (leading_categories : List String)
    (conditional_probs : CPT) : ℚ :=
  match alookup conditional_probs question_id with
  | none => 1
  | some qtable =>
    let max_variance := qtable.foldl (fun mv ap =>
      let leading_probs := leading_categories.map (fun cat => dgetD ap.2 cat)
      if leading_probs.isEmpty then mv else max mv (npVariance leading_probs)) 0
    1 + min (max_variance * 10) 1

/-- select_next_question (source lines 1706-1760): greedy argmax of
weighted information gain over the available questions; strict improvement
only, so the first seen wins on ties. -/
def select_next_question (H : Dist → ℚ) (current_probs : Dist)
    (available_questions : List String) (questions_dict : List (String × Question))
    (conditional_probs : CPT) : Option String :=
  let leading_categories := ((sortDesc current_probs).take 3).map (fun p => p.1)
  (available_questions.foldl (fun best q_id =>
    match alookup questions_dict q_id with
    | none => best
    | some question =>
      let base_ig := calculate_information_gain H current_probs q_id conditional_probs
      let relevance_weight :=
        calculate_relevance_weight q_id leading_categories conditional_probs
      let nodal_weight := if question.is_nodal then question.nodal_weight else 1
      let weighted_ig := base_ig * relevance_weight * nodal_weight
      if best.2 < weighted_ig then (some q_id, weighted_ig) else best)
    ((none : Option String), (-1 : ℚ))).1

/-! ## The session state machine (class IEIDiagnosticEngine) -/

/-- The mutable state of IEIDiagnosticEngine. -/
structure EngineState where
  current_probs : Dist
  answers : List (String × String)
  asked_questions : List String
  pathognomonic_match : Option PathognomicPattern
deriving DecidableEq

/-- The state built by __init__. -/
def engineInit : EngineState :=
  ⟨initialize_prior_probabilities, [], [], none⟩

/-- reset (source lines 1920-1925): reinitialize every field. -/
def reset (_s : EngineState) : EngineState :=
  ⟨initialize_prior_probabilities, [], [], none⟩

/-- The dict returned by process_answer, one constructor per status
string. -/
inductive TurnResult where
  | patternDetected (suspected_diagnosis : String) (confidence : ℚ) (category : String)
      (confirm_with : List String) (current_probabilities : Dist)
  | diagnosisReached (top_diagnosis : String × ℚ) (differential : List (String × ℚ))
      (confidence : ℚ) (entropy : ℚ) (current_probabilities : Dist)
  | questionsExhausted (differential : List (String × ℚ)) (entropy : ℚ)
      (current_probabilities : Dist)
  | continueTurn (next_question : Option String) (question_text : String)
      (answer_options : List String) (current_entropy : ℚ)
      (top_categories : List (String × ℚ)) (current_probabilities : Dist)
deriving DecidableEq

/-- The status field of the returned dict. -/
def TurnResult.status : TurnResult → String
  | .patternDetected _ _ _ _ _ => "pattern_detected"
  | .diagnosisReached _ _ _ _ _ => "diagnosis_reached"
  | .questionsExhausted _ _ _ => "questions_exhausted"
  | .continueTurn _ _ _ _ _ _ => "continue"

/-- The current_probabilities field of the returned dict (present in every
status). -/
def TurnResult.current_probabilities : TurnResult → Dist
  | .patternDetected _ _ _ _ d => d
  | .diagnosisReached _ _ _ _ d => d
  | .questionsExhausted _ _ d => d
  | .continueTurn _ _ _ _ _ d => d

/-- The part of process_answer after the pattern-detection return: Bayesian
update, stopping check, question exhaustion and selection (source lines
1854-1909).  The state s already carries the recorded answer and the
appended asked list. -/
def afterBayesianUpdate (H : Dist → ℚ) (s : EngineState) (question_id answer : String)
    (min_questions_met : Bool) : TurnResult × EngineState :=
  let probs :=
    update_probabilities_bayesian s.current_probs question_id answer CONDITIONAL_PROBABILITIES
  let s1 := { s with current_probs := probs }
  let max_prob := maxVal probs
  let current_entropy := H probs
  if min_questions_met && (decide (0.995 ≤ max_prob) || decide (current_entropy < 0.15)) then
    (.diagnosisReached ((get_top_diagnoses probs 1).headD ("", 0)) (get_top_diagnoses probs 8)
      max_prob current_entropy probs, s1)
  else
    let available := (QUESTIONS.map (fun p => p.1)).filter
      (fun q_id => !(s1.asked_questions.contains q_id))
    if available.isEmpty then
      (.questionsExhausted (get_top_diagnoses probs 8) current_entropy probs, s1)
    else
      let next_q :=
        select_next_question H probs available QUESTIONS CONDITIONAL_PROBABILITIES
      let qinfo := alookup QUESTIONS (next_q.getD "")
      (.continueTurn next_q ((qinfo.map (fun q => q.text)).getD "")
        ((qinfo.map (fun q => q.answer_options)).getD [])
        current_entropy (get_top_diagnoses probs 3) probs, s1)

/-- process_answer (source lines 1818-1909).  Records the answer
unconditionally, runs the pattern check only once 15 answers are recorded,
returns early (without updating the distribution) on a match of confidence
at least 0.90, otherwise updates and checks the stopping criteria. -/
def process_answer (H : Dist → ℚ) (s : EngineState) (question_id answer : String) :
    TurnResult × EngineState :=
  let answers := dictInsert s.answers question_id answer
  let asked := s.asked_questions ++ [question_id]
  let min_questions_met : Bool := decide (15 ≤ asked.length)
  let pattern_match :=
    if min_questions_met then check_pathognomonic_patterns answers PATHOGNOMONIC_PATTERNS
    else none
  let s0 : EngineState :=
    { current_probs := s.current_probs, answers := answers, asked_questions := asked,
      pathognomonic_match :=
        match pattern_match with
        | some pc => some pc.1
        | none => s.pathognomonic_match }
  match pattern_match with
  | some pc =>
    if 0.90 ≤ pc.2 then
      (.patternDetected pc.1.name pc.2 pc.1.category pc.1.confirm_with s0.current_probs, s0)
    else afterBayesianUpdate H s0 question_id answer min_questions_met
  | none => afterBayesianUpdate H s0 question_id answer min_questions_met

/-- Feed an ordered list of (question, answer) pairs through the engine,
collecting each TurnResult. -/
def runEngine (H : Dist → ℚ) (s : EngineState) :
    List (String × String) → EngineState × List TurnResult
  | [] => (s, [])
  | (q, a) :: rest =>
    let step := process_answer H s q a
    let tail := runEngine H step.2 rest
    (tail.1, step.1 :: tail.2)

/-! ## General lemmas about the embedded dictionary operations -/

lemma mem_of_alookup_eq_some {α : Type} {l : List (String × α)} {k : String} {v : α}
    (h : alookup l k = some v) : (k, v) ∈ l := by
  unfold alookup at h
  rcases Option.map_eq_some'.1 h with ⟨pr, hfind, hv⟩
  have hm := List.mem_of_find?_eq_some hfind
  have hp : pr.1 = k := by
    have hpb := List.find?_some hfind
    simpa using hpb
  obtain ⟨p1, p2⟩ := pr
  cases hp
  cases hv
  exact hm

lemma dgetD_nonneg {l : Dist} (h : ∀ p ∈ l, 0 ≤ p.2) (k : String) : 0 ≤ dgetD l k := by
  unfold dgetD
  cases hfind : alookup l k with
  | none => simp
  | some v =>
    have := mem_of_alookup_eq_some hfind
    simpa using h _ this

/-- Every entry of the conditional probability table is nonnegative. -/
lemma CPT_nonneg : ∀ qe ∈ CONDITIONAL_PROBABILITIES, ∀ ae ∈ qe.2, ∀ ce ∈ ae.2, 0 ≤ ce.2 := by
  decide

lemma list_sum_map_div {α : Type} (l : List α) (f : α → ℚ) (c : ℚ) :
    (l.map (fun x => f x / c)).sum = (l.map f).sum / c := by
  induction l with
  | nil => simp
  | cons x xs ih => simp [ih, add_div]

lemma list_sum_map_add {α : Type} (l : List α) (f g : α → ℚ) :
    (l.map (fun x => f x + g x)).sum = (l.map f).sum + (l.map g).sum := by
  induction l with
  | nil => simp
  | cons x xs ih => simp only [List.map_cons, List.sum_cons, ih]; ring

lemma list_sum_map_const {α : Type} (l : List α) (c : ℚ) :
    (l.map (fun _ => c)).sum = l.length * c := by
  induction l with
  | nil => simp
  | cons x xs ih => simp only [List.map_cons, List.sum_cons, ih, List.length_cons]; push_cast; ring

lemma sumValues_map_div (l : Dist) (c : ℚ) :
    sumValues (l.map (fun p => (p.1, p.2 / c))) = sumValues l / c := by
  unfold sumValues
  rw [List.map_map]
  have hcomp : ((fun p : String × ℚ => p.2) ∘ (fun p : String × ℚ => (p.1, p.2 / c)))
      = fun p : String × ℚ => p.2 / c := rfl
  rw [hcomp, list_sum_map_div]

/-! ## Claim C1: behaviour of the floored, renormalized Bayesian update -/

lemma flooredPosteriors_floor (ap cp : Dist) (m : ℚ) :
    ∀ p ∈ flooredPosteriors ap cp m, (0.005 : ℚ) ≤ p.2 := by
  intro p hp
  unfold flooredPosteriors at hp
  rcases List.mem_map.1 hp with ⟨cat, _, rfl⟩
  exact le_max_right _ _

lemma sumValues_flooredPosteriors_lb (ap cp : Dist)
    (hm : 0 < marginal_p_answer ap cp) :
    1 ≤ sumValues (flooredPosteriors ap cp (marginal_p_answer ap cp)) := by
  unfold sumValues flooredPosteriors
  rw [List.map_map]
  have h1 : ((IEI_CATEGORIES.map
      (fun cat => dgetD ap cat * dgetD cp cat / marginal_p_answer ap cp))).sum
      ≤ (IEI_CATEGORIES.map ((fun p => p.2) ∘
          (fun cat => (cat, max (dgetD ap cat * dgetD cp cat / marginal_p_answer ap cp)
            0.005)))).sum := by
    apply List.sum_le_sum
    intro c _
    exact le_max_left _ _
  refine le_trans (le_of_eq ?_) h1
  rw [list_sum_map_div]
  unfold marginal_p_answer
  rw [div_self]
  exact ne_of_gt hm

lemma sumValues_flooredPosteriors_ub (ap cp : Dist)
    (hm : 0 < marginal_p_answer ap cp)
    (hg : ∀ cat : String, 0 ≤ dgetD ap cat * dgetD cp cat) :
    sumValues (flooredPosteriors ap cp (marginal_p_answer ap cp)) ≤ 26/25 := by
  unfold sumValues flooredPosteriors
  rw [List.map_map]
  have h1 : (IEI_CATEGORIES.map ((fun p => p.2) ∘
      (fun cat => (cat, max (dgetD ap cat * dgetD cp cat / marginal_p_answer ap cp)
        0.005)))).sum
      ≤ (IEI_CATEGORIES.map
          (fun cat => dgetD ap cat * dgetD cp cat / marginal_p_answer ap cp + 0.005)).sum := by
    apply List.sum_le_sum
    intro c _
    have hx : (0 : ℚ) ≤ dgetD ap c * dgetD cp c / marginal_p_answer ap cp :=
      div_nonneg (hg c) (le_of_lt hm)
    simp only [Function.comp]
    apply max_le
    · nlinarith
    · nlinarith
  refine le_trans h1 (le_of_eq ?_)
  rw [list_sum_map_add, list_sum_map_div, list_sum_map_const]
  have hne : (IEI_CATEGORIES.map (fun cat => dgetD ap cat * dgetD cp cat)).sum ≠ 0 :=
    ne_of_gt hm
  have hmar : marginal_p_answer ap cp
      = (IEI_CATEGORIES.map (fun cat => dgetD ap cat * dgetD cp cat)).sum := rfl
  rw [hmar, div_self hne]
  norm_num [IEI_CATEGORIES]

/-- C1 (amended): if the question and answer are present in the table and the
marginal is positive, the updated distribution sums to exactly 1, and every
value is at least 0.005/1.04 = 1/208.  (Values can fall slightly below the
raw 0.005 floor, because the floor is applied before renormalization and the
floored vector can sum to as much as 1.04; see C1_counterexample.) -/
theorem C1_theorem (current_probs : Dist) (question_id answer : String)
    {qtable : List (String × Dist)} {answer_probs : Dist}
    (hq : alookup CONDITIONAL_PROBABILITIES question_id = some qtable)
    (ha : alookup qtable answer = some answer_probs)
    (hnn : ∀ p ∈ current_probs, 0 ≤ p.2)
    (hsum : sumValues current_probs = 1)
    (hm : 0 < marginal_p_answer answer_probs current_probs) :
    sumValues (update_probabilities_bayesian current_probs question_id answer
      CONDITIONAL_PROBABILITIES) = 1 ∧
    ∀ p ∈ update_probabilities_bayesian current_probs question_id answer
      CONDITIONAL_PROBABILITIES, 1/208 ≤ p.2 := by
  have hAnn : ∀ ce ∈ answer_probs, 0 ≤ ce.2 :=
    CPT_nonneg _ (mem_of_alookup_eq_some hq) _ (mem_of_alookup_eq_some ha)
  have hg : ∀ cat : String, 0 ≤ dgetD answer_probs cat * dgetD current_probs cat :=
    fun cat => mul_nonneg (dgetD_nonneg hAnn cat) (dgetD_nonneg hnn cat)
  have hred : update_probabilities_bayesian current_probs question_id answer
      CONDITIONAL_PROBABILITIES
      = normalizeDist (flooredPosteriors answer_probs current_probs
          (marginal_p_answer answer_probs current_probs)) := by
    simp only [update_probabilities_bayesian, hq, ha]
    rw [if_neg (ne_of_gt hm)]
  rw [hred]
  have hTlb := sumValues_flooredPosteriors_lb answer_probs current_probs hm
  have hTub := sumValues_flooredPosteriors_ub answer_probs current_probs hm hg
  have hTpos : 0 < sumValues (flooredPosteriors answer_probs current_probs
      (marginal_p_answer answer_probs current_probs)) := lt_of_lt_of_le one_pos hTlb
  unfold normalizeDist
  rw [if_pos hTpos]
  constructor
  · rw [sumValues_map_div, div_self (ne_of_gt hTpos)]
  · intro p hp
    rcases List.mem_map.1 hp with ⟨q, hqmem, rfl⟩
    have hfloor : (0.005 : ℚ) ≤ q.2 := flooredPosteriors_floor _ _ _ _ hqmem
    have h005 : (0.005 : ℚ) = 1/200 := by norm_num
    rw [h005] at hfloor
    show (1 : ℚ)/208 ≤ q.2 / sumValues (flooredPosteriors answer_probs current_probs
      (marginal_p_answer answer_probs current_probs))
    rw [le_div_iff₀ hTpos]
    linarith

/-- C1 counterexample: on the prior distribution with question Q15 and
answer Fungi (both present in the table, marginal positive, priors
nonnegative and summing to 1), the updated value of Complement_Deficiency
is 359/72068, which is strictly below the floor 0.005 stated by the
claim.  The sum is still exactly 1. -/
theorem C1_counterexample :
    (∀ p ∈ initialize_prior_probabilities, 0 ≤ p.2) ∧
    sumValues initialize_prior_probabilities = 1 ∧
    (0 : ℚ) <
      (359/2500 : ℚ) ∧
    marginal_p_answer
      [("Phagocyte_Defect", 0.50), ("Combined_ID", 0.25), ("Innate_Immunity", 0.15),
       ("Immune_Dysregulation", 0.05), ("Antibody_Deficiency", 0.03),
       ("Autoinflammatory", 0.01), ("Complement_Deficiency", 0.005),
       ("Bone_Marrow_Failure", 0.005)] initialize_prior_probabilities = 359/2500 ∧
    dgetD (update_probabilities_bayesian initialize_prior_probabilities "Q15" "Fungi"
      CONDITIONAL_PROBABILITIES) "Complement_Deficiency" < 0.005 ∧
    sumValues (update_probabilities_bayesian initialize_prior_probabilities "Q15" "Fungi"
      CONDITIONAL_PROBABILITIES) = 1 := by
  refine ⟨by decide, by decide, by decide, by decide, by decide, by decide⟩

/-- Witness for C1_theorem at the concrete input (priors, Q15, Fungi). -/
theorem C1_witness :
    ((∀ p ∈ initialize_prior_probabilities, 0 ≤ p.2) ∧
      sumValues initialize_prior_probabilities = 1) ∧
    (sumValues (update_probabilities_bayesian initialize_prior_probabilities "Q15" "Fungi"
      CONDITIONAL_PROBABILITIES) = 1 ∧
    ∀ p ∈ update_probabilities_bayesian initialize_prior_probabilities "Q15" "Fungi"
      CONDITIONAL_PROBABILITIES, 1/208 ≤ p.2) :=
  ⟨⟨by decide, by decide⟩,
    C1_theorem initialize_prior_probabilities "Q15" "Fungi" rfl rfl
      (by decide) (by decide) (by decide)⟩

/-! ## Claim C7: the silent no-op cases of the updater -/

/-- C7: calling the updater with an unknown question id, an unknown answer,
or a pair of exactly zero marginal probability returns the input
distribution value-equal (in the engine the stored distribution is simply
reassigned to this returned value, so the state is unchanged too); no
exception paths exist, the function is total. -/
theorem C7_theorem (current_probs : Dist) (question_id answer : String)
    (h : alookup CONDITIONAL_PROBABILITIES question_id = none
      ∨ (∃ qtable, alookup CONDITIONAL_PROBABILITIES question_id = some qtable ∧
          alookup qtable answer = none)
      ∨ (∃ qtable answer_probs,
          alookup CONDITIONAL_PROBABILITIES question_id = some qtable ∧
          alookup qtable answer = some answer_probs ∧
          marginal_p_answer answer_probs current_probs = 0)) :
    update_probabilities_bayesian current_probs question_id answer CONDITIONAL_PROBABILITIES
      = current_probs := by
  rcases h with h | ⟨qt, hq, ha⟩ | ⟨qt, ap, hq, ha, hm⟩
  · simp only [update_probabilities_bayesian, h]
  · simp only [update_probabilities_bayesian, hq, ha]
  · simp only [update_probabilities_bayesian, hq, ha]
    rw [if_pos hm]

/-- Witness for C7_theorem: Q99 is not in the table. -/
theorem C7_witness :
    (alookup CONDITIONAL_PROBABILITIES "Q99" = none) ∧
    update_probabilities_bayesian initialize_prior_probabilities "Q99" "Yes"
      CONDITIONAL_PROBABILITIES = initialize_prior_probabilities :=
  ⟨by decide, C7_theorem initialize_prior_probabilities "Q99" "Yes" (Or.inl (by decide))⟩

/-! ## Claims C2 and C3: what the pattern matcher can actually return -/

/-- The caller contract stated by the spec: every recorded question id is in
the catalog and every stored answer is one of that question's declared
answer options. -/
def WFAnswers (answers : List (String × String)) : Prop :=
  ∀ pr ∈ answers, ∃ question, alookup QUESTIONS pr.1 = some question ∧
    pr.2 ∈ question.answer_options

/-- A decidable sufficient condition for the contract. -/
lemma WFAnswers_of_bool (answers : List (String × String))
    (h : answers.all (fun pr => (alookup QUESTIONS pr.1).any
        (fun question => decide (pr.2 ∈ question.answer_options))) = true) :
    WFAnswers answers := by
  intro pr hpr
  have hb := List.all_eq_true.1 h pr hpr
  cases hq : alookup QUESTIONS pr.1 with
  | none => rw [hq] at hb; simp [Option.any] at hb
  | some question =>
    rw [hq] at hb
    simp only [Option.any_some, decide_eq_true_eq] at hb
    exact ⟨question, rfl, hb⟩

/-- Under the contract, an answer that is not a declared option of the
question (or whose question is absent from the catalog) is never stored. -/
lemma wf_no_answer (answers : List (String × String)) (hwf : WFAnswers answers)
    (q a : String)
    (hopt : (alookup QUESTIONS q).all (fun question => decide (a ∉ question.answer_options))
      = true) :
    alookup answers q ≠ some a := by
  intro h
  obtain ⟨question, hq', hmem⟩ := hwf _ (mem_of_alookup_eq_some h)
  rw [hq'] at hopt
  simp only [Option.all_some, decide_eq_true_eq] at hopt
  exact hopt hmem

lemma pm_AT (answers : List (String × String)) :
    pattern_matches answers pat_AT
      = (decide (alookup answers "Q23" = some "Yes") && true) := rfl

lemma pm_LAD1 (answers : List (String × String)) :
    pattern_matches answers pat_LAD1
      = (decide (alookup answers "Q39" = some "Yes") && true) := rfl

lemma pm_CGD (answers : List (String × String)) :
    pattern_matches answers pat_CGD
      = (decide (alookup answers "Q15" = some "Fungi") &&
         (decide (alookup answers "Q8" = some "Yes") &&
          (decide (alookup answers "Q45" = some "Yes") && true))) := rfl

lemma pm_SCID (answers : List (String × String)) :
    pattern_matches answers pat_SCID
      = (decide (alookup answers "Q1" = some "<6mo") &&
         (decide (alookup answers "Q5" = some "Yes") &&
          (decide (alookup answers "Q33" = some "Yes") && true))) := rfl

lemma pm_APECED (answers : List (String × String)) :
    pattern_matches answers pat_APECED
      = (decide (alookup answers "Q10" = some "Yes") &&
         (decide (alookup answers "Q27" = some "Yes") &&
          (decide (alookup answers "Q31" = some "Yes") && true))) := rfl

lemma pm_HIES (answers : List (String × String)) :
    pattern_matches answers pat_HIES
      = (decide (alookup answers "Q7" = some "Yes_severe") &&
         (decide (alookup answers "Q8" = some "Yes") &&
          (decide (alookup answers "Q24" = some "Yes") &&
           (decide (alookup answers "Q13" = some "Yes") && true)))) := rfl

lemma pat_AT_fails (answers : List (String × String)) (hwf : WFAnswers answers) :
    pattern_matches answers pat_AT = false := by
  rw [pm_AT, Bool.and_true]
  exact decide_eq_false (wf_no_answer answers hwf "Q23" "Yes" (by decide))

lemma pat_LAD1_fails (answers : List (String × String)) (hwf : WFAnswers answers) :
    pattern_matches answers pat_LAD1 = false := by
  rw [pm_LAD1, Bool.and_true]
  exact decide_eq_false (wf_no_answer answers hwf "Q39" "Yes" (by decide))

lemma pat_CGD_fails (answers : List (String × String)) (hwf : WFAnswers answers) :
    pattern_matches answers pat_CGD = false := by
  rw [pm_CGD, decide_eq_false (wf_no_answer answers hwf "Q45" "Yes" (by decide))]
  simp

lemma pat_SCID_fails (answers : List (String × String)) (hwf : WFAnswers answers) :
    pattern_matches answers pat_SCID = false := by
  rw [pm_SCID, decide_eq_false (wf_no_answer answers hwf "Q5" "Yes" (by decide))]
  simp

lemma pat_APECED_fails (answers : List (String × String)) (hwf : WFAnswers answers) :
    pattern_matches answers pat_APECED = false := by
  rw [pm_APECED, decide_eq_false (wf_no_answer answers hwf "Q27" "Yes" (by decide))]
  simp

lemma pat_HIES_fails (answers : List (String × String)) (hwf : WFAnswers answers) :
    pattern_matches answers pat_HIES = false := by
  rw [pm_HIES, decide_eq_false (wf_no_answer answers hwf "Q13" "Yes" (by decide))]
  simp

/-- C3: under the caller contract (answers drawn from the declared options
of catalogued questions) the matcher can only ever return the
Wiskott-Aldrich pattern: the Ataxia-Telangiectasia, SCID, APECED and
Hyper-IgE patterns demand trigger tokens that are not declared options of
Q23, Q5, Q27 and Q13, and the LAD-1 and CGD patterns reference Q39 and Q45,
which are not in the catalog, so all six always fail. -/
theorem C3_theorem (answers : List (String × String)) (hwf : WFAnswers answers)
    (p : PathognomicPattern) (c : ℚ)
    (h : check_pathognomonic_patterns answers PATHOGNOMONIC_PATTERNS = some (p, c)) :
    p.name = "Wiskott-Aldrich Syndrome" ∧ p = pat_WAS ∧ c = 0.90 := by
  have hATn : ¬ (pattern_matches answers pat_AT = true) := by
    simp [pat_AT_fails answers hwf]
  have hLADn : ¬ (pattern_matches answers pat_LAD1 = true) := by
    simp [pat_LAD1_fails answers hwf]
  have hCGDn : ¬ (pattern_matches answers pat_CGD = true) := by
    simp [pat_CGD_fails answers hwf]
  have hSCIDn : ¬ (pattern_matches answers pat_SCID = true) := by
    simp [pat_SCID_fails answers hwf]
  have hAPECEDn : ¬ (pattern_matches answers pat_APECED = true) := by
    simp [pat_APECED_fails answers hwf]
  have hHIESn : ¬ (pattern_matches answers pat_HIES = true) := by
    simp [pat_HIES_fails answers hwf]
  unfold check_pathognomonic_patterns PATHOGNOMONIC_PATTERNS at h
  rw [List.find?_cons_of_neg _ hATn] at h
  cases hWAS : pattern_matches answers pat_WAS
  · have hWASn : ¬ (pattern_matches answers pat_WAS = true) := by simp [hWAS]
    rw [List.find?_cons_of_neg _ hWASn, List.find?_cons_of_neg _ hLADn,
        List.find?_cons_of_neg _ hCGDn, List.find?_cons_of_neg _ hSCIDn,
        List.find?_cons_of_neg _ hAPECEDn, List.find?_cons_of_neg _ hHIESn] at h
    simp at h
  · rw [List.find?_cons_of_pos _ hWAS] at h
    simp only [Option.map_some', Option.some.injEq, Prod.mk.injEq] at h
    obtain ⟨h1, h2⟩ := h
    subst h1
    subst h2
    exact ⟨rfl, rfl, rfl⟩

/-- Witness for C3_theorem at a concrete contract-respecting answers map
that triggers the Wiskott-Aldrich pattern. -/
theorem C3_witness :
    WFAnswers [("Q7", "Yes_severe"), ("Q2", "Yes_severe"), ("Q17", "Thrombocytopenia")] ∧
    (check_pathognomonic_patterns
      [("Q7", "Yes_severe"), ("Q2", "Yes_severe"), ("Q17", "Thrombocytopenia")]
      PATHOGNOMONIC_PATTERNS = some (pat_WAS, 0.90)) ∧
    pat_WAS.name = "Wiskott-Aldrich Syndrome" ∧ pat_WAS = pat_WAS ∧ (0.90 : ℚ) = 0.90 :=
  ⟨WFAnswers_of_bool _ (by decide), by decide,
    C3_theorem [("Q7", "Yes_severe"), ("Q2", "Yes_severe"), ("Q17", "Thrombocytopenia")]
      (WFAnswers_of_bool _ (by decide)) pat_WAS 0.90 (by decide)⟩

/-- A 15-submission answers map, every answer a declared option of its
catalogued question, with Q23 answered Yes_both. -/
def C2_failing_answers : List (String × String) :=
  [("Q2", "No"), ("Q6", "Male"), ("Q7", "No"), ("Q8", "No"), ("Q9", "No"),
   ("Q10", "No"), ("Q11", "No"), ("Q13", "No"), ("Q14", "No"), ("Q17", "None"),
   ("Q19", "No"), ("Q20", "No"), ("Q21", "No"), ("Q22", "No"), ("Q23", "Yes_both")]

/-- C2 (code bug): with 15 recorded answers including Q23 = Yes_both the
matcher returns nothing at all, although the spec scenario (and the comment
next to the trigger in the source: Both ataxia AND telangiectasia) expects
the Ataxia-Telangiectasia pattern with confidence 0.95.  The trigger token
of that pattern is Q23:Yes, and Yes is not among the declared options of
Q23, so the pattern can never fire on catalog answers; in process_answer
such a turn therefore falls through to the Bayesian update instead of
returning a pattern_detected result. -/
theorem C2_theorem :
    C2_failing_answers.length = 15 ∧
    alookup C2_failing_answers "Q23" = some "Yes_both" ∧
    WFAnswers C2_failing_answers ∧
    check_pathognomonic_patterns C2_failing_answers PATHOGNOMONIC_PATTERNS = none ∧
    pat_AT ∈ PATHOGNOMONIC_PATTERNS ∧
    pat_AT.name = "Ataxia-Telangiectasia" ∧
    pat_AT.probability = 0.95 ∧
    pat_AT.triggers = ["Q23:Yes"] ∧
    ((alookup QUESTIONS "Q23").all
      (fun question => decide ("Yes" ∉ question.answer_options)) = true) := by
  refine ⟨by decide, by decide, WFAnswers_of_bool _ (by decide), by decide, by decide,
    by decide, by decide, by decide, by decide⟩

/-! ## Structural lemmas about process_answer branches -/

lemma afterBayesianUpdate_status (H : Dist → ℚ) (s : EngineState) (q a : String) (b : Bool) :
    (afterBayesianUpdate H s q a b).1.status = "diagnosis_reached" ∨
    (afterBayesianUpdate H s q a b).1.status = "questions_exhausted" ∨
    (afterBayesianUpdate H s q a b).1.status = "continue" := by
  simp only [afterBayesianUpdate]
  split
  · left; rfl
  · split
    · right; left; rfl
    · right; right; rfl

lemma afterBayesianUpdate_not_pattern (H : Dist → ℚ) (s : EngineState) (q a : String)
    (b : Bool) : (afterBayesianUpdate H s q a b).1.status ≠ "pattern_detected" := by
  rcases afterBayesianUpdate_status H s q a b with h | h | h <;> rw [h] <;> decide

lemma afterBayesianUpdate_false (H : Dist → ℚ) (s : EngineState) (q a : String) :
    (afterBayesianUpdate H s q a false).1.status ≠ "diagnosis_reached" := by
  simp only [afterBayesianUpdate]
  split
  · next hcond => simp at hcond
  · split
    · intro h
      simp only [TurnResult.status] at h
      exact absurd h (by decide)
    · intro h
      simp only [TurnResult.status] at h
      exact absurd h (by decide)

lemma afterBayesianUpdate_state (H : Dist → ℚ) (s : EngineState) (q a : String) (b : Bool) :
    (afterBayesianUpdate H s q a b).2
      = { s with current_probs := (update_probabilities_bayesian s.current_probs q a
            CONDITIONAL_PROBABILITIES) } := by
  simp only [afterBayesianUpdate]
  split
  · rfl
  · split
    · rfl
    · rfl

/-- When the post-update branch stops with diagnosis_reached, the gate-and-
stopping boolean was true. -/
lemma afterBayesianUpdate_diag_cond (H : Dist → ℚ) (s : EngineState) (q a : String)
    (b : Bool)
    (hst : (afterBayesianUpdate H s q a b).1.status = "diagnosis_reached") :
    (b && (decide (0.995 ≤ maxVal (update_probabilities_bayesian s.current_probs q a
        CONDITIONAL_PROBABILITIES)) ||
      decide (H (update_probabilities_bayesian s.current_probs q a CONDITIONAL_PROBABILITIES)
        < 0.15))) = true := by
  revert hst
  simp only [afterBayesianUpdate]
  split
  · next hcond => intro _; exact hcond
  · split
    · intro hst
      simp only [TurnResult.status] at hst
      exact absurd hst (by decide)
    · intro hst
      simp only [TurnResult.status] at hst
      exact absurd hst (by decide)

/-- With the 15-answer gate passed, the post-update branch stops with
diagnosis_reached exactly when the stopping condition holds of the updated
distribution, and then exposes top diagnosis, full differential, max
probability as confidence, and entropy. -/
lemma afterBayesianUpdate_true (H : Dist → ℚ) (s : EngineState) (q a : String) :
    ((afterBayesianUpdate H s q a true).1.status = "diagnosis_reached" ↔
      (0.995 ≤ maxVal (update_probabilities_bayesian s.current_probs q a
          CONDITIONAL_PROBABILITIES) ∨
        H (update_probabilities_bayesian s.current_probs q a CONDITIONAL_PROBABILITIES)
          < 0.15)) ∧
    ((0.995 ≤ maxVal (update_probabilities_bayesian s.current_probs q a
          CONDITIONAL_PROBABILITIES) ∨
        H (update_probabilities_bayesian s.current_probs q a CONDITIONAL_PROBABILITIES)
          < 0.15) →
      (afterBayesianUpdate H s q a true).1 = TurnResult.diagnosisReached
        ((get_top_diagnoses (update_probabilities_bayesian s.current_probs q a
            CONDITIONAL_PROBABILITIES) 1).headD ("", 0))
        (get_top_diagnoses (update_probabilities_bayesian s.current_probs q a
            CONDITIONAL_PROBABILITIES) 8)
        (maxVal (update_probabilities_bayesian s.current_probs q a
            CONDITIONAL_PROBABILITIES))
        (H (update_probabilities_bayesian s.current_probs q a CONDITIONAL_PROBABILITIES))
        (update_probabilities_bayesian s.current_probs q a CONDITIONAL_PROBABILITIES)) := by
  by_cases hcond : (0.995 ≤ maxVal (update_probabilities_bayesian s.current_probs q a
      CONDITIONAL_PROBABILITIES) ∨
    H (update_probabilities_bayesian s.current_probs q a CONDITIONAL_PROBABILITIES) < 0.15)
  · have hbool : (true && (decide (0.995 ≤ maxVal (update_probabilities_bayesian
        s.current_probs q a CONDITIONAL_PROBABILITIES)) ||
        decide (H (update_probabilities_bayesian s.current_probs q a
          CONDITIONAL_PROBABILITIES) < 0.15))) = true := by
      rcases hcond with h1 | h1 <;> simp [h1]
    have hres : (afterBayesianUpdate H s q a true).1 = TurnResult.diagnosisReached
        ((get_top_diagnoses (update_probabilities_bayesian s.current_probs q a
            CONDITIONAL_PROBABILITIES) 1).headD ("", 0))
        (get_top_diagnoses (update_probabilities_bayesian s.current_probs q a
            CONDITIONAL_PROBABILITIES) 8)
        (maxVal (update_probabilities_bayesian s.current_probs q a
            CONDITIONAL_PROBABILITIES))
        (H (update_probabilities_bayesian s.current_probs q a CONDITIONAL_PROBABILITIES))
        (update_probabilities_bayesian s.current_probs q a CONDITIONAL_PROBABILITIES) := by
      simp only [afterBayesianUpdate, hbool, if_true]
    refine ⟨⟨fun _ => hcond, fun _ => ?_⟩, fun _ => hres⟩
    rw [hres]
    rfl
  · refine ⟨⟨fun hst => ?_, fun hc => absurd hc hcond⟩, fun hc => absurd hc hcond⟩
    exfalso
    have hb := afterBayesianUpdate_diag_cond H s q a true hst
    simp only [Bool.true_and, Bool.or_eq_true, decide_eq_true_eq] at hb
    exact hcond hb

lemma check_some_prob_lt (answers : List (String × String)) (pc : PathognomicPattern × ℚ)
    (hc : check_pathognomonic_patterns answers PATHOGNOMONIC_PATTERNS = some pc)
    (hpat : ∀ p ∈ PATHOGNOMONIC_PATTERNS, pattern_matches answers p = true →
      p.probability < 0.90) :
    pc.2 < 0.90 := by
  unfold check_pathognomonic_patterns at hc
  rcases Option.map_eq_some'.1 hc with ⟨pr, hfind, hpc⟩
  have hmem := List.mem_of_find?_eq_some hfind
  have hmatch := List.find?_some hfind
  cases hpc
  exact hpat pr hmem hmatch

/-! ## Claim C4: the 15-answer gate blocks both terminal detections -/

/-- C4: with fewer than 15 recorded answers (including the current
submission) process_answer never returns a pattern_detected or
diagnosis_reached result, whatever the answers say and whatever entropy
function is used. -/
theorem C4_theorem (H : Dist → ℚ) (s : EngineState) (q a : String)
    (h : s.asked_questions.length + 1 < 15) :
    (process_answer H s q a).1.status ≠ "pattern_detected" ∧
    (process_answer H s q a).1.status ≠ "diagnosis_reached" := by
  have hmq : (decide (15 ≤ (s.asked_questions ++ [q]).length)) = false := by
    simp only [List.length_append, List.length_cons, List.length_nil]
    simp only [decide_eq_false_iff_not]
    omega
  simp only [process_answer, hmq, Bool.false_eq_true, if_false]
  exact ⟨afterBayesianUpdate_not_pattern H _ q a false, afterBayesianUpdate_false H _ q a⟩

/-- Witness for C4_theorem on a fresh session. -/
theorem C4_witness :
    (engineInit.asked_questions.length + 1 < 15) ∧
    ((process_answer (fun _ => 0) engineInit "Q33" "Yes").1.status ≠ "pattern_detected" ∧
     (process_answer (fun _ => 0) engineInit "Q33" "Yes").1.status ≠ "diagnosis_reached") :=
  ⟨by decide, C4_theorem (fun _ => 0) engineInit "Q33" "Yes" (by decide)⟩

/-! ## Claim C5: a pattern_detected turn skips the Bayesian update -/

/-- C5: whenever process_answer returns a pattern_detected result, both the
distribution stored in the session afterwards and the distribution exposed
in the result are value-equal to the distribution held before the call: the
triggering answer's Bayesian update is not applied on that turn. -/
theorem C5_theorem (H : Dist → ℚ) (s : EngineState) (q a : String)
    (h : (process_answer H s q a).1.status = "pattern_detected") :
    (process_answer H s q a).1.current_probabilities = s.current_probs ∧
    (process_answer H s q a).2.current_probs = s.current_probs := by
  revert h
  simp only [process_answer]
  split
  · split
    · intro _
      exact ⟨rfl, rfl⟩
    · intro h
      exact absurd h (afterBayesianUpdate_not_pattern H _ q a _)
  · intro h
    exact absurd h (afterBayesianUpdate_not_pattern H _ q a _)

/-- A state with 14 questions asked and the first two Wiskott-Aldrich
trigger answers recorded; the 15th submission completes the pattern. -/
def C5_state : EngineState :=
  ⟨initialize_prior_probabilities,
   [("Q7", "Yes_severe"), ("Q2", "Yes_severe")],
   ["X1", "X2", "X3", "X4", "X5", "X6", "X7", "X8", "X9", "X10", "X11", "X12", "X13", "X14"],
   none⟩

/-- Witness for C5_theorem: completing the Wiskott-Aldrich pattern on the
15th submission leaves the distribution untouched. -/
theorem C5_witness :
    ((process_answer (fun _ => 0) C5_state "Q17" "Thrombocytopenia").1.status
      = "pattern_detected") ∧
    ((process_answer (fun _ => 0) C5_state "Q17" "Thrombocytopenia").1.current_probabilities
      = C5_state.current_probs ∧
     (process_answer (fun _ => 0) C5_state "Q17" "Thrombocytopenia").2.current_probs
      = C5_state.current_probs) :=
  ⟨by decide, C5_theorem (fun _ => 0) C5_state "Q17" "Thrombocytopenia" (by decide)⟩

/-! ## Claim C6: the stopping rule after the gate -/

/-- C6: on a submission with at least 15 recorded answers on which no
pattern of confidence at least 0.90 matches, the turn ends in
diagnosis_reached exactly when, after the Bayesian update for the current
answer, the maximum category probability is at least 0.995 or the entropy
of the updated distribution is below 0.15; the result then exposes the top
category, the ranked 8-category differential, the maximum probability as
confidence, and the entropy.  Stated for an arbitrary entropy function H,
hence for the one the source computes. -/
theorem C6_theorem (H : Dist → ℚ) (s : EngineState) (q a : String)
    (hmin : 15 ≤ s.asked_questions.length + 1)
    (hpat : ∀ p ∈ PATHOGNOMONIC_PATTERNS,
      pattern_matches (dictInsert s.answers q a) p = true → p.probability < 0.90) :
    ((process_answer H s q a).1.status = "diagnosis_reached" ↔
      (0.995 ≤ maxVal (update_probabilities_bayesian s.current_probs q a
          CONDITIONAL_PROBABILITIES) ∨
        H (update_probabilities_bayesian s.current_probs q a CONDITIONAL_PROBABILITIES)
          < 0.15)) ∧
    ((0.995 ≤ maxVal (update_probabilities_bayesian s.current_probs q a
          CONDITIONAL_PROBABILITIES) ∨
        H (update_probabilities_bayesian s.current_probs q a CONDITIONAL_PROBABILITIES)
          < 0.15) →
      (process_answer H s q a).1 = TurnResult.diagnosisReached
        ((get_top_diagnoses (update_probabilities_bayesian s.current_probs q a
            CONDITIONAL_PROBABILITIES) 1).headD ("", 0))
        (get_top_diagnoses (update_probabilities_bayesian s.current_probs q a
            CONDITIONAL_PROBABILITIES) 8)
        (maxVal (update_probabilities_bayesian s.current_probs q a
            CONDITIONAL_PROBABILITIES))
        (H (update_probabilities_bayesian s.current_probs q a CONDITIONAL_PROBABILITIES))
        (update_probabilities_bayesian s.current_probs q a CONDITIONAL_PROBABILITIES)) := by
  have hmq : (decide (15 ≤ (s.asked_questions ++ [q]).length)) = true := by
    simp only [List.length_append, List.length_cons, List.length_nil]
    simp only [decide_eq_true_eq]
    omega
  simp only [process_answer, hmq, if_true]
  split
  · next pc heq =>
    have h90 : ¬ ((0.90 : ℚ) ≤ pc.2) := not_le.2 (check_some_prob_lt _ pc heq hpat)
    rw [if_neg h90]
    exact afterBayesianUpdate_true H _ q a
  · exact afterBayesianUpdate_true H _ q a

/-- A state with 14 questions asked and no recorded answers: the 15th
submission Q33 = Yes passes the gate and matches no pattern. -/
def C6_state : EngineState :=
  ⟨initialize_prior_probabilities, [],
   ["X1", "X2", "X3", "X4", "X5", "X6", "X7", "X8", "X9", "X10", "X11", "X12", "X13", "X14"],
   none⟩

/-- Witness for C6_theorem at a concrete 15th submission. -/
theorem C6_witness :
    (15 ≤ C6_state.asked_questions.length + 1) ∧
    (((process_answer (fun _ => 0) C6_state "Q33" "Yes").1.status = "diagnosis_reached" ↔
      (0.995 ≤ maxVal (update_probabilities_bayesian C6_state.current_probs "Q33" "Yes"
          CONDITIONAL_PROBABILITIES) ∨
        (fun _ => (0 : ℚ)) (update_probabilities_bayesian C6_state.current_probs "Q33" "Yes"
          CONDITIONAL_PROBABILITIES) < 0.15)) ∧
    ((0.995 ≤ maxVal (update_probabilities_bayesian C6_state.current_probs "Q33" "Yes"
          CONDITIONAL_PROBABILITIES) ∨
        (fun _ => (0 : ℚ)) (update_probabilities_bayesian C6_state.current_probs "Q33" "Yes"
          CONDITIONAL_PROBABILITIES) < 0.15) →
      (process_answer (fun _ => 0) C6_state "Q33" "Yes").1 = TurnResult.diagnosisReached
        ((get_top_diagnoses (update_probabilities_bayesian C6_state.current_probs "Q33" "Yes"
            CONDITIONAL_PROBABILITIES) 1).headD ("", 0))
        (get_top_diagnoses (update_probabilities_bayesian C6_state.current_probs "Q33" "Yes"
            CONDITIONAL_PROBABILITIES) 8)
        (maxVal (update_probabilities_bayesian C6_state.current_probs "Q33" "Yes"
            CONDITIONAL_PROBABILITIES))
        ((fun _ => (0 : ℚ)) (update_probabilities_bayesian C6_state.current_probs "Q33" "Yes"
            CONDITIONAL_PROBABILITIES))
        (update_probabilities_bayesian C6_state.current_probs "Q33" "Yes"
          CONDITIONAL_PROBABILITIES))) :=
  ⟨by decide, C6_theorem (fun _ => 0) C6_state "Q33" "Yes" (by decide) (by decide)⟩

/-! ## Claim C8: get_top_diagnoses is a stable descending sort prefix -/

lemma insertDesc_perm (x : String × ℚ) (l : List (String × ℚ)) :
    List.Perm (insertDesc x l) (x :: l) := by
  induction l with
  | nil => exact List.Perm.refl _
  | cons y ys ih =>
    unfold insertDesc
    split
    · exact List.Perm.refl _
    · exact (List.Perm.cons y ih).trans (List.Perm.swap x y ys)

lemma insertDesc_sorted (x : String × ℚ) (l : List (String × ℚ))
    (h : l.Pairwise (fun p q => q.2 ≤ p.2)) :
    (insertDesc x l).Pairwise (fun p q => q.2 ≤ p.2) := by
  induction l with
  | nil => simp [insertDesc]
  | cons y ys ih =>
    rcases List.pairwise_cons.1 h with ⟨hy, hys⟩
    unfold insertDesc
    split
    · next hle =>
      refine List.pairwise_cons.2 ⟨?_, h⟩
      intro z hz
      rcases List.mem_cons.1 hz with rfl | hz
      · exact hle
      · exact le_trans (hy z hz) hle
    · next hlt =>
      push_neg at hlt
      refine List.pairwise_cons.2 ⟨?_, ih hys⟩
      intro z hz
      rcases List.mem_cons.1 ((insertDesc_perm x ys).mem_iff.1 hz) with rfl | hz
      · exact le_of_lt hlt
      · exact hy z hz

lemma insertDesc_filter (x : String × ℚ) (l : List (String × ℚ)) (v : ℚ) :
    (insertDesc x l).filter (fun p => decide (p.2 = v))
      = if x.2 = v then x :: l.filter (fun p => decide (p.2 = v))
        else l.filter (fun p => decide (p.2 = v)) := by
  induction l with
  | nil => by_cases hv : x.2 = v <;> simp [insertDesc, hv]
  | cons y ys ih =>
    unfold insertDesc
    split
    · next hle =>
      by_cases hv : x.2 = v <;> simp [List.filter_cons, hv]
    · next hlt =>
      push_neg at hlt
      by_cases hv : x.2 = v
      · have hyv : ¬ (y.2 = v) := by
          rw [← hv]
          exact ne_of_gt hlt
        simp [List.filter_cons, hyv, ih, hv]
      · simp [List.filter_cons, ih, hv]

lemma sortDesc_perm (l : List (String × ℚ)) : List.Perm (sortDesc l) l := by
  induction l with
  | nil => exact List.Perm.refl _
  | cons x xs ih =>
    exact (insertDesc_perm x (sortDesc xs)).trans (List.Perm.cons x ih)

lemma sortDesc_sorted (l : List (String × ℚ)) :
    (sortDesc l).Pairwise (fun p q => q.2 ≤ p.2) := by
  induction l with
  | nil => simp [sortDesc]
  | cons x xs ih => exact insertDesc_sorted x (sortDesc xs) ih

lemma sortDesc_filter (l : List (String × ℚ)) (v : ℚ) :
    (sortDesc l).filter (fun p => decide (p.2 = v))
      = l.filter (fun p => decide (p.2 = v)) := by
  induction l with
  | nil => rfl
  | cons x xs ih =>
    show (insertDesc x (sortDesc xs)).filter (fun p => decide (p.2 = v)) = _
    rw [insertDesc_filter]
    by_cases hv : x.2 = v
    · simp [List.filter_cons, hv, ih]
    · simp [List.filter_cons, hv, ih]

/-- C8 (amended): get_top_diagnoses returns the first n entries of a stable
descending sort of the distribution: the output is descending in
probability, the full sort is a permutation of the distribution, and ties
keep the insertion order of the distribution dict (stability, phrased as
filter-invariance on every probability value).  For distributions built by
the Bayesian update that insertion order is the IEI_CATEGORIES order, but
the prior dict is declared in its own order, in which Antibody_Deficiency
precedes Combined_ID and Phagocyte_Defect: on the prior the three-way 0.15
tie therefore ranks Antibody_Deficiency first, not Combined_ID as the
category-declaration-order tie-break of the claim predicts. -/
theorem C8_theorem :
    (∀ (probs : Dist) (n : Nat), get_top_diagnoses probs n = (sortDesc probs).take n) ∧
    (∀ probs : Dist,
      (sortDesc probs).Pairwise (fun p q => q.2 ≤ p.2) ∧
      List.Perm (sortDesc probs) probs ∧
      ∀ v : ℚ, (sortDesc probs).filter (fun p => decide (p.2 = v))
        = probs.filter (fun p => decide (p.2 = v))) ∧
    get_top_diagnoses initialize_prior_probabilities 8
      = [("Antibody_Deficiency", 0.15), ("Combined_ID", 0.15), ("Phagocyte_Defect", 0.15),
         ("Immune_Dysregulation", 0.13), ("Autoinflammatory", 0.12), ("Innate_Immunity", 0.12),
         ("Complement_Deficiency", 0.10), ("Bone_Marrow_Failure", 0.08)] :=
  ⟨fun _ _ => rfl,
   fun probs => ⟨sortDesc_sorted probs, sortDesc_perm probs, sortDesc_filter probs⟩,
   by decide⟩

/-- C8 counterexample: on the prior distribution Combined_ID and
Antibody_Deficiency tie at 0.15 and Combined_ID comes first in the fixed
category declaration order IEI_CATEGORIES, yet get_top_diagnoses ranks
Antibody_Deficiency first: the tie-break is the insertion order of the
distribution dict, not the category declaration order. -/
theorem C8_counterexample :
    (get_top_diagnoses initialize_prior_probabilities 2
      = [("Antibody_Deficiency", 0.15), ("Combined_ID", 0.15)]) ∧
    IEI_CATEGORIES.indexOf "Combined_ID" < IEI_CATEGORIES.indexOf "Antibody_Deficiency" ∧
    dgetD initialize_prior_probabilities "Combined_ID"
      = dgetD initialize_prior_probabilities "Antibody_Deficiency" := by
  refine ⟨by decide, by decide, by decide⟩

/-! ## Claim C9: determinism and replay -/

/-- C9: the engine is a pure function of the session state and the
submitted pairs, and reset rebuilds exactly the fresh state: feeding the
same ordered sequence into two freshly initialized or reset sessions gives
identical final states and an identical trace of TurnResults (each carrying
all exposed fields, including the per-turn distribution), for every entropy
function H. -/
theorem C9_theorem (H : Dist → ℚ) (seq : List (String × String)) (s t : EngineState)
    (hs : s = engineInit ∨ ∃ u, s = reset u) (ht : t = engineInit ∨ ∃ u, t = reset u) :
    runEngine H s seq = runEngine H t seq := by
  have hs' : s = engineInit := by rcases hs with h | ⟨u, h⟩ <;> rw [h] <;> rfl
  have ht' : t = engineInit := by rcases ht with h | ⟨u, h⟩ <;> rw [h] <;> rfl
  rw [hs', ht']

/-- Witness for C9_theorem: a fresh session and a reset session replay one
submission identically. -/
theorem C9_witness :
    ((engineInit = engineInit ∨ ∃ u, engineInit = reset u) ∧
      (reset engineInit = engineInit ∨ ∃ u, reset engineInit = reset u)) ∧
    runEngine (fun _ => 0) engineInit [("Q15", "Fungi")]
      = runEngine (fun _ => 0) (reset engineInit) [("Q15", "Fungi")] :=
  ⟨⟨Or.inl rfl, Or.inr ⟨engineInit, rfl⟩⟩,
    C9_theorem (fun _ => 0) [("Q15", "Fungi")] engineInit (reset engineInit)
      (Or.inl rfl) (Or.inr ⟨engineInit, rfl⟩)⟩

/-! ## Claim C10: unconditional recording of every submission -/

lemma process_answer_state (H : Dist → ℚ) (s : EngineState) (q a : String) :
    (process_answer H s q a).2.asked_questions = s.asked_questions ++ [q] ∧
    (process_answer H s q a).2.answers = dictInsert s.answers q a := by
  simp only [process_answer]
  split
  · split
    · exact ⟨rfl, rfl⟩
    · rw [afterBayesianUpdate_state]
      exact ⟨rfl, rfl⟩
  · rw [afterBayesianUpdate_state]
    exact ⟨rfl, rfl⟩

lemma alookup_dictInsert_self (l : List (String × String)) (k v : String) :
    alookup (dictInsert l k v) k = some v := by
  induction l with
  | nil => simp [dictInsert, alookup, List.find?]
  | cons p t ih =>
    unfold dictInsert
    split
    · next heq =>
      unfold alookup
      rw [List.find?_cons_of_pos _ (by simp [heq])]
      rfl
    · next hne =>
      unfold alookup at ih ⊢
      rw [List.find?_cons_of_neg _ (by simp [hne])]
      exact ih

lemma alookup_dictInsert_other (l : List (String × String)) (k v k' : String)
    (h : k' ≠ k) :
    alookup (dictInsert l k v) k' = alookup l k' := by
  induction l with
  | nil =>
    unfold dictInsert alookup
    rw [List.find?_cons_of_neg _ (by simp [Ne.symm h])]
  | cons p t ih =>
    unfold dictInsert
    split
    · next heq =>
      by_cases hk : p.1 = k'
      · exact absurd (hk.symm.trans heq) h
      · unfold alookup
        rw [List.find?_cons_of_neg _ (by simp [hk]), List.find?_cons_of_neg _ (by simp [hk])]
    · next hne =>
      by_cases hk : p.1 = k'
      · unfold alookup
        rw [List.find?_cons_of_pos _ (by simp [hk]), List.find?_cons_of_pos _ (by simp [hk])]
      · unfold alookup at ih ⊢
        rw [List.find?_cons_of_neg _ (by simp [hk]), List.find?_cons_of_neg _ (by simp [hk])]
        exact ih

lemma runEngine_asked_length (H : Dist → ℚ) (seq : List (String × String))
    (s : EngineState) :
    (runEngine H s seq).1.asked_questions.length
      = s.asked_questions.length + seq.length := by
  induction seq generalizing s with
  | nil => simp [runEngine]
  | cons p rest ih =>
    obtain ⟨q, a⟩ := p
    simp only [runEngine]
    rw [ih]
    rw [(process_answer_state H s q a).1]
    simp only [List.length_append, List.length_cons, List.length_nil]
    omega

/-- C10: process_answer records every submission unconditionally: the
question id is appended to the asked history even when already present,
the stored answer for that id is overwritten, other stored answers are
untouched, and the history length after any sequence of n submissions into
a fresh session is exactly n, so the 15-submission gate counts submissions
(repeating one question 15 times reaches the pattern and stopping checks). -/
theorem C10_theorem :
    (∀ (H : Dist → ℚ) (s : EngineState) (q a : String),
      (process_answer H s q a).2.asked_questions = s.asked_questions ++ [q] ∧
      alookup ((process_answer H s q a).2.answers) q = some a ∧
      ∀ q', q' ≠ q → alookup ((process_answer H s q a).2.answers) q'
        = alookup s.answers q') ∧
    (∀ (H : Dist → ℚ) (seq : List (String × String)),
      (runEngine H engineInit seq).1.asked_questions.length = seq.length) := by
  constructor
  · intro H s q a
    obtain ⟨h1, h2⟩ := process_answer_state H s q a
    refine ⟨h1, ?_, ?_⟩
    · rw [h2]
      exact alookup_dictInsert_self _ _ _
    · intro q' hq'
      rw [h2]
      exact alookup_dictInsert_other _ _ _ _ hq'
  · intro H seq
    rw [runEngine_asked_length]
    simp [engineInit]

/-- Witness for C10_theorem: resubmitting Q23 into a fresh session, and 15
repetitions of one question reaching the gate. -/
theorem C10_witness :
    (("Q1" : String) ≠ "Q23") ∧
    ((process_answer (fun _ => 0) engineInit "Q23" "Yes_both").2.asked_questions
      = engineInit.asked_questions ++ ["Q23"] ∧
     alookup ((process_answer (fun _ => 0) engineInit "Q23" "Yes_both").2.answers) "Q23"
      = some "Yes_both" ∧
     alookup ((process_answer (fun _ => 0) engineInit "Q23" "Yes_both").2.answers) "Q1"
      = alookup engineInit.answers "Q1") ∧
    (runEngine (fun _ => 0) engineInit
      (List.replicate 15 ("Q23", "Yes_both"))).1.asked_questions.length = 15 :=
  ⟨by decide,
   ⟨(C10_theorem.1 (fun _ => 0) engineInit "Q23" "Yes_both").1,
    (C10_theorem.1 (fun _ => 0) engineInit "Q23" "Yes_both").2.1,
    (C10_theorem.1 (fun _ => 0) engineInit "Q23" "Yes_both").2.2 "Q1" (by decide)⟩,
   by simpa using C10_theorem.2 (fun _ => 0) (List.replicate 15 ("Q23", "Yes_both"))⟩
